import Mathlib

/-!
# Banking-System — verification of the spec's claims against the source

Shallow embedding of the Banking-System TypeScript repository.

Modelling conventions, used throughout:

* JS strings are modelled as `JStr := List Nat`, the list of UTF-16 code
  units.  `btoa`/`atob` are only meaningful on Latin-1 strings (every
  code unit < 256); real `btoa` throws otherwise, and every theorem that
  touches base64 carries the corresponding `Latin1` hypothesis.
* JS numbers are modelled as exact rationals (`ℚ`); the spec itself
  mandates fixed-point decimal arithmetic, and all amounts in play have
  at most two decimal digits.
* Timestamps (`Date.now()`, `new Date()`) are milliseconds, modelled as
  `ℤ` and injected explicitly as a `now` argument.
* Randomness (UUIDs, session tokens, account numbers) is injected as
  explicit arguments.
* The PBKDF2 password hash (`crypto.subtle`, platform code that is not
  part of the repository) is abstracted as a function argument
  `verifyPwd : JStr → JStr → JStr → Bool`.
* `JSON.stringify`/`JSON.parse` of the fixed JWT payload record is
  abstracted as an injected codec pair `enc`/`dec`; theorems assume the
  codec round-trips only at the payloads they actually use.
* In-memory JS array mutation through `.find` updates the first matching
  element (`updateFirst`); a SQL `UPDATE … WHERE` updates every matching
  row (`List.map` with a guard).
-/

/-- A JavaScript string: list of UTF-16 code units. -/
abbrev JStr := List Nat

/-- Code-unit list of a Lean string literal (used for constants). -/
def jstr (s : String) : JStr := s.data.map Char.toNat

/-- Every code unit is a valid Latin-1 byte (< 256); `btoa` throws otherwise. -/
def Latin1 (s : JStr) : Prop := ∀ c ∈ s, c < 256

instance : DecidablePred Latin1 := fun s =>
  decidable_of_iff (∀ c ∈ s, c < 256) Iff.rfl

/-- Base64 alphabet: value `n < 64` to its character code. -/
def sextetChar (n : Nat) : Nat :=
  if n < 26 then 65 + n
  else if n < 52 then 97 + (n - 26)
  else if n < 62 then 48 + (n - 52)
  else if n = 62 then 43
  else 47

/-- Inverse of `sextetChar`: character code to sextet value (`none` off-alphabet). -/
def sextetVal (c : Nat) : Option Nat :=
  if 65 ≤ c ∧ c ≤ 90 then some (c - 65)
  else if 97 ≤ c ∧ c ≤ 122 then some (c - 97 + 26)
  else if 48 ≤ c ∧ c ≤ 57 then some (c - 48 + 52)
  else if c = 43 then some 62
  else if c = 47 then some 63
  else none

/-- `btoa`: base64-encode a Latin-1 string (code 61 is the pad `=`). -/
def btoa : JStr → JStr
  | [] => []
  | [a] => [sextetChar (a / 4), sextetChar (a % 4 * 16), 61, 61]
  | [a, b] => [sextetChar (a / 4), sextetChar (a % 4 * 16 + b / 16),
      sextetChar (b % 16 * 4), 61]
  | a :: b :: c :: rest =>
      sextetChar (a / 4) :: sextetChar (a % 4 * 16 + b / 16) ::
      sextetChar (b % 16 * 4 + c / 64) :: sextetChar (c % 64) :: btoa rest

/-- `atob`: base64-decode (forgiving-base64 without the whitespace pass;
no theorem feeds it whitespace).  `none` models the thrown
`InvalidCharacterError`. -/
def atob : JStr → Option JStr
  | [] => some []
  | [p, q] => do
      let a ← sextetVal p
      let b ← sextetVal q
      pure [a * 4 + b / 16]
  | [p, q, r] => do
      let a ← sextetVal p
      let b ← sextetVal q
      let c ← sextetVal r
      pure [a * 4 + b / 16, b % 16 * 16 + c / 4]
  | p :: q :: r :: s :: rest => do
      let a ← sextetVal p
      let b ← sextetVal q
      if r = 61 ∧ s = 61 ∧ rest = [] then
        pure [a * 4 + b / 16]
      else
        let c ← sextetVal r
        if s = 61 ∧ rest = [] then
          pure [a * 4 + b / 16, b % 16 * 16 + c / 4]
        else
          let d ← sextetVal s
          let tail ← atob rest
          pure ([a * 4 + b / 16, b % 16 * 16 + c / 4, c % 4 * 64 + d] ++ tail)
  | _ => none

/-- Split a code-unit list at every occurrence of code `sep`
(JS `String.prototype.split` with a one-character separator). -/
def splitOnCode (sep : Nat) : JStr → List JStr
  | [] => [[]]
  | c :: rest =>
      if c = sep then [] :: splitOnCode sep rest
      else
        match splitOnCode sep rest with
        | h :: t => (c :: h) :: t
        | [] => [[c]]

/-- `xs` starts with `pre` (JS `String.prototype.startsWith`). -/
def beginsWith : JStr → JStr → Bool
  | [], _ => true
  | _ :: _, [] => false
  | p :: ps, c :: cs => p = c && beginsWith ps cs

/-- Everything strictly after the first occurrence of code 46 (`.`). -/
def dropAfterDot : JStr → JStr
  | [] => []
  | c :: rest => if c = 46 then rest else dropAfterDot rest

/-! ## `src/lib/crypto.ts` — SecureCrypto's hand-rolled JWT -/

/-- `JSON.stringify({ alg: "HS256", typ: "JWT" })` as code units. -/
def headerJson : JStr := jstr "\x7b\"alg\":\"HS256\",\"typ\":\"JWT\"\x7d"

/-- `SecureCrypto.generateJWT(payload, secret)`.  `payload` is the
`JSON.stringify` of the payload object (serialisation happens before
`btoa` in the source). -/
def generateJWT (payload secret : JStr) : JStr :=
  let encodedHeader := btoa headerJson
  let encodedPayload := btoa payload
  let signature := btoa (encodedHeader ++ 46 :: encodedPayload ++ 46 :: secret)
  encodedHeader ++ 46 :: encodedPayload ++ 46 :: signature

/-- `SecureCrypto.verifyJWT(token, secret)`: recomputes the "signature"
from the first two dot-separated segments and the secret; on a match,
returns the base64-decoded payload JSON (the source then `JSON.parse`s
it).  `none` models the `null` / caught-exception results. -/
def verifyJWT (token secret : JStr) : Option JStr :=
  match splitOnCode 46 token with
  | h :: p :: s :: _ =>
      if s = btoa (h ++ 46 :: p ++ 46 :: secret) then atob p else none
  | _ => none

/-! ## `src/lib/security.ts` (part_007) — validation and sanitisation -/

/-- ASCII whitespace, the core of regex `\s` / `String.prototype.trim`. -/
def isWsCode (c : Nat) : Bool :=
  c = 32 || c = 9 || c = 10 || c = 11 || c = 12 || c = 13

def isDigitCode (c : Nat) : Bool := 48 ≤ c && c ≤ 57

def isUpperCode (c : Nat) : Bool := 65 ≤ c && c ≤ 90

def isLowerCode (c : Nat) : Bool := 97 ≤ c && c ≤ 122

def isAlphaCode (c : Nat) : Bool := isUpperCode c || isLowerCode c

def isAlnumCode (c : Nat) : Bool := isAlphaCode c || isDigitCode c

/-- Regex `\w`: `[A-Za-z0-9_]`. -/
def isWordCode (c : Nat) : Bool := isAlnumCode c || c = 95

/-- `SecurityPatterns.name`: `/^[a-zA-Z\s'-]{2,50}$/` (39 = apostrophe, 45 = hyphen). -/
def namePat (s : JStr) : Bool :=
  2 ≤ s.length && s.length ≤ 50 &&
    s.all (fun c => isAlphaCode c || isWsCode c || c = 39 || c = 45)

/-- `SecurityPatterns.accountNumber`: `/^[0-9]{10}$/`. -/
def accountNumberPat (s : JStr) : Bool :=
  s.length = 10 && s.all isDigitCode

/-- `SecurityPatterns.reference`: `/^[a-zA-Z0-9\s\-_]{1,35}$/`. -/
def referencePat (s : JStr) : Bool :=
  1 ≤ s.length && s.length ≤ 35 &&
    s.all (fun c => isAlnumCode c || isWsCode c || c = 45 || c = 95)

/-- `SecurityPatterns.currency`: `/^(USD|EUR|GBP|ZAR)$/`. -/
def currencyPat (s : JStr) : Bool :=
  s = jstr "USD" || s = jstr "EUR" || s = jstr "GBP" || s = jstr "ZAR"

/-- Character class of the email local part:
`` [a-zA-Z0-9.!#$%&'*+/=?^_`{|}~-] ``. -/
def isEmailLocalCode (c : Nat) : Bool :=
  isAlnumCode c || c = 46 || c = 33 || c = 35 || c = 36 || c = 37 || c = 38 ||
    c = 39 || c = 42 || c = 43 || c = 47 || c = 61 || c = 63 || c = 94 ||
    c = 95 || c = 96 || c = 123 || c = 124 || c = 125 || c = 126 || c = 45

/-- One domain label: `[a-zA-Z0-9](?:[a-zA-Z0-9-]{0,61}[a-zA-Z0-9])?` —
1 to 63 chars, first and last alphanumeric, interior alphanumeric or hyphen. -/
def labelOk (l : JStr) : Bool :=
  match l with
  | [] => false
  | [c] => isAlnumCode c
  | c :: rest =>
      l.length ≤ 63 && isAlnumCode c &&
        rest.dropLast.all (fun d => isAlnumCode d || d = 45) &&
        (match rest.getLast? with
         | some d => isAlnumCode d
         | none => false)

/-- `SecurityPatterns.email`: local part `[class]+`, one `@` (64), then
domain labels separated by `.` each matching `labelOk`. -/
def emailPat (s : JStr) : Bool :=
  match splitOnCode 64 s with
  | [loc, dom] =>
      loc ≠ [] && loc.all isEmailLocalCode && (splitOnCode 46 dom).all labelOk
  | _ => false

/-- `SecurityPatterns.password`:
`/^(?=.*[a-z])(?=.*[A-Z])(?=.*\d)(?=.*[@$!%*?&])[A-Za-z\d@$!%*?&]{8,128}$/`
(64 `@`, 36 `$`, 33 `!`, 37 `%`, 42 `*`, 63 `?`, 38 `&`). -/
def isPwdSpecialCode (c : Nat) : Bool :=
  c = 64 || c = 36 || c = 33 || c = 37 || c = 42 || c = 63 || c = 38

def passwordPat (s : JStr) : Bool :=
  8 ≤ s.length && s.length ≤ 128 &&
    s.all (fun c => isAlnumCode c || isPwdSpecialCode c) &&
    s.any isLowerCode && s.any isUpperCode && s.any isDigitCode &&
    s.any isPwdSpecialCode

/-! `validateInput(value, pattern)` is `pattern.test(value)`; each pattern
above is already its own decision function, so call sites apply the
pattern function directly. -/

/-- JS `String.prototype.trim` (ASCII-whitespace model). -/
def jsTrim (s : JStr) : JStr :=
  ((s.dropWhile isWsCode).reverse.dropWhile isWsCode).reverse

/-- ASCII lower-casing of one code unit (for `toLowerCase`/`i`-flags). -/
def lowerCode (c : Nat) : Nat :=
  if isUpperCode c then c + 32 else c

/-- ASCII upper-casing of one code unit (for `toUpperCase`). -/
def upperCode (c : Nat) : Nat :=
  if isLowerCode c then c - 32 else c

/-- Fuel-driven left-to-right non-overlapping removal of a fixed pattern,
compared case-insensitively (JS `replace(/pat/gi, "")`). -/
def removeSeqF (pat : JStr) : Nat → JStr → JStr
  | 0, s => s
  | _ + 1, [] => []
  | fuel + 1, c :: rest =>
      if beginsWith pat ((c :: rest).map lowerCode) then
        removeSeqF pat fuel (rest.drop (pat.length - 1))
      else c :: removeSeqF pat fuel rest

def removeSeq (pat s : JStr) : JStr := removeSeqF pat s.length s

/-- Fuel-driven removal of regex `/on\w+=/gi` matches: `on`, one or more
word chars, then `=` (greedy `\w+` forces the run to be maximal). -/
def removeOnAttrF : Nat → JStr → JStr
  | 0, s => s
  | _ + 1, [] => []
  | _ + 1, [c] => [c]
  | fuel + 1, c :: d :: rest =>
      if lowerCode c = 111 ∧ lowerCode d = 110 then
        let run := (rest.takeWhile isWordCode).length
        if 1 ≤ run ∧ (rest.drop run).headD 0 = 61 ∧ rest.drop run ≠ [] then
          removeOnAttrF fuel (rest.drop (run + 1))
        else c :: removeOnAttrF fuel (d :: rest)
      else c :: removeOnAttrF fuel (d :: rest)

def removeOnAttr (s : JStr) : JStr := removeOnAttrF s.length s

/-- `sanitizeInput` (part_007): trim, strip `<>"'&`, strip
`javascript:` (case-insensitive), strip `on\w+=` handlers, cap at 1000. -/
def sanitizeInput (s : JStr) : JStr :=
  let t := jsTrim s
  let t := t.filter (fun c => !(c = 60 || c = 62 || c = 34 || c = 39 || c = 38))
  let t := removeSeq (jstr "javascript:") t
  let t := removeOnAttr t
  t.take 1000

/-- `validateSouthAfricanBank` (part_007). -/
def validateSouthAfricanBank (bankCode : JStr) : Bool :=
  let u := bankCode.map upperCode
  [jstr "ABSAZAJJ", jstr "FIRNZAJJ", jstr "NEDSZAJJ", jstr "SBZAZAJJ",
   jstr "CABLZAJJ", jstr "INVEZAJJ", jstr "AFRCZAJJ", jstr "BIDVZAJJ",
   jstr "GROSZAJJ", jstr "HABAZAJJ"].any (fun b => b = u)

/-- `validateTransactionAmount` (part_007): finite, positive, at most
1,000,000, and at most two decimal digits (the source counts fractional
digits of `amount.toString()`; over ℚ that is `100 * amount ∈ ℤ`). -/
def validateTransactionAmount (a : ℚ) : Bool :=
  0 < a && a ≤ 1000000 && (a * 100).den = 1

/-- Substring test (JS `String.prototype.includes`). -/
def hasSub (needle : JStr) : JStr → Bool
  | [] => needle = []
  | c :: rest => beginsWith needle (c :: rest) || hasSub needle rest

/-- `validatePasswordStrength` (part_007) returns `valid` iff its error
list stays empty: length in [8,128], one lower/upper/digit/special, and
no common weak substring in the lower-cased password. -/
def validatePasswordStrength (p : JStr) : Bool :=
  let low := p.map lowerCode
  8 ≤ p.length && p.length ≤ 128 &&
    p.any isLowerCode && p.any isUpperCode && p.any isDigitCode &&
    p.any (fun c => c = 64 || c = 36 || c = 33 || c = 37 || c = 42 || c = 63 || c = 38) &&
    !([jstr "password", jstr "123456", jstr "qwerty", jstr "admin",
       jstr "letmein"].any (fun weak => hasSub weak low))

/-! ## `src/lib/secure-database.ts` (part_011, third segment) — data model -/

inductive Role
  | admin
  | customer
deriving DecidableEq

inductive TxStatus
  | pending
  | completed
  | failed
  | cancelled
deriving DecidableEq

structure LoginAttempt where
  timestamp : ℤ
  ip : JStr
  userAgent : JStr
  success : Bool
deriving DecidableEq

/-- `SecureUser`.  ISO date strings are modelled by their timestamps. -/
structure SecureUser where
  id : JStr
  email : JStr
  passwordHash : JStr
  passwordSalt : JStr
  firstName : JStr
  lastName : JStr
  role : Role
  accountNumber : JStr
  balance : ℚ
  isActive : Bool
  createdAt : ℤ
  lastLogin : Option ℤ
  failedLoginAttempts : ℕ
  lockedUntil : Option ℤ
  sessionId : Option JStr
  twoFactorEnabled : Bool
  loginHistory : List LoginAttempt
deriving DecidableEq

/-- `SecureTransaction` (the `type` field is a plain string in the source). -/
structure SecureTransaction where
  id : JStr
  fromAccountNumber : JStr
  toAccountNumber : JStr
  amount : ℚ
  currency : JStr
  amountInZAR : ℚ
  reference : JStr
  recipientName : JStr
  recipientBank : JStr
  status : TxStatus
  createdAt : ℤ
  completedAt : Option ℤ
  fees : ℚ
  type : JStr
  ipAddress : Option JStr
  userAgent : Option JStr
  riskScore : ℕ
deriving DecidableEq

/-- Entry of the `sessions: Map<string, {userId, expiresAt}>`. -/
structure SessionEntry where
  userId : JStr
  expiresAt : ℤ
deriving DecidableEq

/-- The module-level `secureStorage` object. -/
structure SecureStorage where
  users : List SecureUser
  transactions : List SecureTransaction
  sessions : List (JStr × SessionEntry)
deriving DecidableEq

/-- Update the first element satisfying `p` (JS `array.find` + in-place
mutation of the found object). -/
def updateFirst (p : α → Bool) (f : α → α) : List α → List α
  | [] => []
  | x :: xs => if p x then f x :: xs else x :: updateFirst p f xs

/-- JS `Map.get`. -/
def mapGet (m : List (JStr × α)) (k : JStr) : Option α :=
  (m.find? (fun e => e.1 = k)).map (·.2)

/-- JS `Map.set` (replaces an existing binding, else appends). -/
def mapSet (m : List (JStr × α)) (k : JStr) (v : α) : List (JStr × α) :=
  if (m.find? (fun e => e.1 = k)).isSome then
    updateFirst (fun e => e.1 = k) (fun e => (e.1, v)) m
  else m ++ [(k, v)]

/-- JS `Map.delete`. -/
def mapDelete (m : List (JStr × α)) (k : JStr) : List (JStr × α) :=
  m.filter (fun e => !(e.1 = k))

/-- `(n).toString()` for the array-length-based ids. -/
def jstrOfNat (n : ℕ) : JStr := (Nat.toDigits 10 n).map Char.toNat

/-- Argument record of `SecureDatabase.createTransaction`
(`Omit<SecureTransaction, "id" | "createdAt" | "riskScore">`). -/
structure CreateTxData where
  fromAccountNumber : JStr
  toAccountNumber : JStr
  amount : ℚ
  currency : JStr
  amountInZAR : ℚ
  reference : JStr
  recipientName : JStr
  recipientBank : JStr
  status : TxStatus
  completedAt : Option ℤ
  fees : ℚ
  type : JStr
deriving DecidableEq

/-- The risk score computed inline by `SecureDatabase.createTransaction`:
amount tier, international bump, and +25 when no stored transaction (of
any status) already links this exact (from, to) pair.  The source never
applies a cap here and consults no clock. -/
def createTransactionRiskScore (txs : List SecureTransaction)
    (d : CreateTxData) : ℕ :=
  (if d.amountInZAR > 50000 then 30 else if d.amountInZAR > 10000 then 15 else 0)
  + (if d.type = jstr "international_transfer" then 20 else 0)
  + (if (txs.filter (fun t =>
        t.fromAccountNumber = d.fromAccountNumber &&
        t.toAccountNumber = d.toAccountNumber)).length = 0 then 25 else 0)

/-- `SecureDatabase.createTransaction`: assigns the next array-length id,
stamps `createdAt`, computes the risk score, and pushes the record. -/
def createTransaction (st : SecureStorage) (d : CreateTxData) (now : ℤ)
    (ipAddress userAgent : Option JStr) : SecureTransaction × SecureStorage :=
  let tx : SecureTransaction :=
    { id := jstrOfNat (st.transactions.length + 1)
      fromAccountNumber := d.fromAccountNumber
      toAccountNumber := d.toAccountNumber
      amount := d.amount
      currency := d.currency
      amountInZAR := d.amountInZAR
      reference := d.reference
      recipientName := d.recipientName
      recipientBank := d.recipientBank
      status := d.status
      createdAt := now
      completedAt := d.completedAt
      fees := d.fees
      type := d.type
      ipAddress := ipAddress
      userAgent := userAgent
      riskScore := createTransactionRiskScore st.transactions d }
  (tx, { st with transactions := st.transactions ++ [tx] })

/-- `SecureDatabase.updateUserBalance`. -/
def updateUserBalance (st : SecureStorage) (userId : JStr) (newBalance : ℚ) :
    Bool × SecureStorage :=
  if (st.users.find? (fun u => u.id = userId)).isSome then
    let users' := updateFirst (fun u => u.id = userId)
      (fun u => { u with balance := newBalance }) st.users
    (true, { st with users := users' })
  else (false, st)

/-- `SecureDatabase.updateUserStatus`. -/
def updateUserStatus (st : SecureStorage) (userId : JStr) (isActive : Bool) :
    Bool × SecureStorage :=
  if (st.users.find? (fun u => u.id = userId)).isSome then
    let users' := updateFirst (fun u => u.id = userId)
      (fun u => { u with isActive := isActive }) st.users
    (true, { st with users := users' })
  else (false, st)

inductive CreateUserErr
  | invalidEmail
  | invalidFirstName
  | invalidLastName
  | weakPassword
  | emailExists
deriving DecidableEq

inductive CreateUserResult
  | failure (e : CreateUserErr)
  | success (user : SecureUser)
deriving DecidableEq

/-- Argument record of `SecureDatabase.createUser`. -/
structure CreateUserData where
  email : JStr
  firstName : JStr
  lastName : JStr
  password : JStr
  initialBalance : ℚ
deriving DecidableEq

/-- `SecureDatabase.createUser`.  `hashF` abstracts the PBKDF2
`SecureCrypto.hashPassword` (platform crypto); `accountNumber` injects
the `Math.random`-generated account number.  Note the source validates
email, names and password format but never checks `initialBalance`. -/
def createUser (hashF : JStr → JStr × JStr) (accountNumber : JStr)
    (st : SecureStorage) (d : CreateUserData) (now : ℤ) :
    CreateUserResult × SecureStorage :=
  if ¬ emailPat d.email then (.failure .invalidEmail, st)
  else if ¬ namePat d.firstName then (.failure .invalidFirstName, st)
  else if ¬ namePat d.lastName then (.failure .invalidLastName, st)
  else if ¬ passwordPat d.password then (.failure .weakPassword, st)
  else if (st.users.find? (fun u => u.email = sanitizeInput d.email)).isSome then
    (.failure .emailExists, st)
  else
    let hs := hashF d.password
    let newUser : SecureUser :=
      { id := jstrOfNat (st.users.length + 1)
        email := sanitizeInput d.email
        passwordHash := hs.1
        passwordSalt := hs.2
        firstName := sanitizeInput d.firstName
        lastName := sanitizeInput d.lastName
        role := .customer
        accountNumber := accountNumber
        balance := d.initialBalance
        isActive := true
        createdAt := now
        lastLogin := none
        failedLoginAttempts := 0
        lockedUntil := none
        sessionId := none
        twoFactorEnabled := false
        loginHistory := [] }
    let st1 := { st with users := st.users ++ [newUser] }
    if d.initialBalance > 0 then
      let st2 := (createTransaction st1
        { fromAccountNumber := jstr "SYSTEM_DEPOSIT"
          toAccountNumber := accountNumber
          amount := d.initialBalance
          currency := jstr "ZAR"
          amountInZAR := d.initialBalance
          reference := jstr "Initial account deposit"
          recipientName := newUser.firstName ++ 32 :: newUser.lastName
          recipientBank := jstr "SECUREBANK"
          status := .completed
          completedAt := some now
          fees := 0
          type := jstr "deposit" } now none none).2
      (.success newUser, st2)
    else (.success newUser, st1)

/-! ## SecureDatabase — authentication and sessions -/

/-- The JWT payload object `{ userId, sessionId, role, exp }`. -/
structure SDPayload where
  userId : JStr
  sessionId : JStr
  role : Role
  exp : ℤ
deriving DecidableEq

inductive SDAuthErr
  | invalidEmailFormat
  | invalidCredentials
  | accountLocked
  | accountDeactivated
  | invalidCredentialsRemaining (remaining : ℤ)
deriving DecidableEq

inductive SDAuthResult
  | failure (e : SDAuthErr)
  | success (user : SecureUser) (token : JStr)
deriving DecidableEq

/-- `loginHistory.slice(-10)` applied when the history exceeds 10 entries. -/
def keepLast10 (l : List LoginAttempt) : List LoginAttempt :=
  if l.length > 10 then l.drop (l.length - 10) else l

/-- `SecureDatabase.authenticateUser`.  `verifyPwd` abstracts
`SecureCrypto.verifyPassword` (PBKDF2, platform crypto); `enc` abstracts
`JSON.stringify` of the payload; `freshSessionId` injects the random
`generateSecureToken()` result; `secret` is `process.env.JWT_SECRET ||
"fallback-secret"`. -/
def authenticateUser (verifyPwd : JStr → JStr → JStr → Bool)
    (enc : SDPayload → JStr) (secret : JStr) (st : SecureStorage)
    (email password : JStr) (now : ℤ) (freshSessionId : JStr)
    (ipAddress userAgent : JStr) : SDAuthResult × SecureStorage :=
  if ¬ emailPat email then (.failure .invalidEmailFormat, st)
  else
    let sanitizedEmail := sanitizeInput email
    match st.users.find? (fun u => u.email = sanitizedEmail) with
    | none => (.failure .invalidCredentials, st)
    | some user =>
      let loginAttempt : LoginAttempt :=
        { timestamp := now, ip := ipAddress, userAgent := userAgent, success := false }
      if (match user.lockedUntil with
          | some t => decide (now < t)
          | none => false) then
        (.failure .accountLocked, st)
      else if ¬ user.isActive then (.failure .accountDeactivated, st)
      else if ¬ verifyPwd password user.passwordHash user.passwordSalt then
        let attempts' := user.failedLoginAttempts + 1
        let locked' := if attempts' ≥ 5 then some (now + 900000) else user.lockedUntil
        let user' := { user with
          failedLoginAttempts := attempts'
          lockedUntil := locked'
          loginHistory := user.loginHistory ++ [loginAttempt] }
        let users' := updateFirst (fun u => u.email = sanitizedEmail)
          (fun _ => user') st.users
        let st' := { st with users := users' }
        (.failure (.invalidCredentialsRemaining (5 - (attempts' : ℤ))), st')
      else
        let sessionExpiry := now + 86400000
        let user' := { user with
          failedLoginAttempts := 0
          lockedUntil := none
          lastLogin := some now
          sessionId := some freshSessionId
          loginHistory :=
            keepLast10 (user.loginHistory ++ [{ loginAttempt with success := true }]) }
        let users' := updateFirst (fun u => u.email = sanitizedEmail)
          (fun _ => user') st.users
        let st1 := { st with users := users' }
        let sessions' := mapSet st1.sessions freshSessionId
          { userId := user.id, expiresAt := sessionExpiry }
        let st2 := { st1 with sessions := sessions' }
        let token := generateJWT
          (enc { userId := user.id, sessionId := freshSessionId,
                 role := user.role, exp := sessionExpiry }) secret
        (.success user' token, st2)

/-- `SecureDatabase.validateSession`.  `dec` abstracts `JSON.parse` of
the payload JSON.  Read-only: the function returns no state because the
source performs no writes; theorems about state preservation use
`validateSessionS` below. -/
def validateSession (dec : JStr → Option SDPayload) (secret : JStr)
    (st : SecureStorage) (token : JStr) (now : ℤ) : Option SecureUser :=
  match (verifyJWT token secret).bind dec with
  | none => none
  | some payload =>
    if payload.exp < now then none
    else
      match mapGet st.sessions payload.sessionId with
      | none => none
      | some session =>
        if session.expiresAt < now then none
        else
          match st.users.find? (fun u => u.id = payload.userId) with
          | none => none
          | some user =>
            if ¬ user.isActive then none
            else if user.sessionId ≠ some payload.sessionId then none
            else some user

/-- `SecureDatabase.logoutUser`: drops the session and clears the
matching user's `sessionId`. -/
def logoutUser (st : SecureStorage) (sessionId : JStr) : SecureStorage :=
  let st1 := { st with sessions := mapDelete st.sessions sessionId }
  let users' := updateFirst (fun u => u.sessionId = some sessionId)
    (fun u => { u with sessionId := none }) st1.users
  { st1 with users := users' }

/-! ## Route handlers built on SecureDatabase -/

inductive TransferErr
  | invalidRecipientName
  | invalidRecipientEmail
  | invalidAccountNumber
  | invalidReference
  | invalidBankCode
  | invalidCurrency
  | invalidAmount
  | invalidZarAmount
  | invalidFees
  | insufficientBalance
  | limitExceeded
  | balanceUpdateFailed
deriving DecidableEq

inductive TransferResp
  | err (e : TransferErr)
  | ok (transactionId : JStr) (newBalance amountDebited : ℚ)
deriving DecidableEq

/-- Request body of the international-transfer route (part_004); the
destructured-but-unused `purpose` field is omitted. -/
structure TransferReq where
  recipientName : JStr
  recipientEmail : JStr
  recipientBank : JStr
  recipientAccount : JStr
  amount : ℚ
  currency : JStr
  reference : JStr
  exchangeRate : ℚ
  zarAmount : ℚ
  fees : ℚ
deriving DecidableEq

/-- The nine early-return input validations of the international-transfer
route (part_004), in source order: the result is the error of the first
failing check. -/
def transferValidation (req : TransferReq) : Option TransferErr :=
  if ¬ namePat req.recipientName then some .invalidRecipientName
  else if ¬ emailPat req.recipientEmail then some .invalidRecipientEmail
  else if ¬ accountNumberPat req.recipientAccount then some .invalidAccountNumber
  else if ¬ referencePat req.reference then some .invalidReference
  else if ¬ validateSouthAfricanBank req.recipientBank then some .invalidBankCode
  else if ¬ currencyPat req.currency then some .invalidCurrency
  else if ¬ validateTransactionAmount req.amount then some .invalidAmount
  else if ¬ validateTransactionAmount req.zarAmount then some .invalidZarAmount
  else if ¬ validateTransactionAmount req.fees then some .invalidFees
  else none

/-- POST of the international-transfer route (part_004), after session
validation has produced `user`.  Check order matches the source; the
5-second `setTimeout` that later flips the transaction to `completed`
is outside the synchronous handler and not modelled. -/
def transferPost (st : SecureStorage) (user : SecureUser) (req : TransferReq)
    (now : ℤ) (clientIP userAgent : JStr) : TransferResp × SecureStorage :=
  match transferValidation req with
  | some e => (.err e, st)
  | none =>
    let totalDebit := req.zarAmount + req.fees
    if totalDebit > user.balance then (.err .insufficientBalance, st)
    else if req.zarAmount > 100000 then (.err .limitExceeded, st)
    else
      let txSt := createTransaction st
        { fromAccountNumber := user.accountNumber
          toAccountNumber := sanitizeInput req.recipientAccount
          amount := req.amount
          currency := req.currency
          amountInZAR := req.zarAmount
          reference := sanitizeInput req.reference
          recipientName := sanitizeInput req.recipientName
          recipientBank := req.recipientBank
          status := .pending
          completedAt := none
          fees := req.fees
          type := jstr "international_transfer" } now (some clientIP) (some userAgent)
      let newBalance := user.balance - totalDebit
      let upd := updateUserBalance txSt.2 user.id newBalance
      if ¬ upd.1 then (.err .balanceUpdateFailed, upd.2)
      else (.ok txSt.1.id newBalance totalDebit, upd.2)

inductive WithdrawErr
  | invalidAmount
  | limitExceeded
  | insufficientBalance
  | balanceUpdateFailed
deriving DecidableEq

inductive WithdrawResp
  | err (e : WithdrawErr)
  | ok (transactionId : JStr) (newBalance amountDebited withdrawalFee : ℚ)
deriving DecidableEq

/-- JS `x || defaultString` (empty string is falsy). -/
def jsOrStr (v : Option JStr) (d : JStr) : JStr :=
  match v with
  | some r => if r = [] then d else r
  | none => d

/-- POST of the withdraw route (part_005, first segment), after session
validation has produced `user`. -/
def withdrawPost (st : SecureStorage) (user : SecureUser) (amount : ℚ)
    (reference : Option JStr) (now : ℤ) (clientIP userAgent : JStr) :
    WithdrawResp × SecureStorage :=
  if ¬ validateTransactionAmount amount then (.err .invalidAmount, st)
  else if amount > 50000 then (.err .limitExceeded, st)
  else
    let withdrawalFee := min (amount * (1 / 1000)) 50
    let totalDebit := amount + withdrawalFee
    if totalDebit > user.balance then (.err .insufficientBalance, st)
    else
      let txSt := createTransaction st
        { fromAccountNumber := user.accountNumber
          toAccountNumber := jstr "SYSTEM_WITHDRAWAL"
          amount := amount
          currency := jstr "ZAR"
          amountInZAR := amount
          reference := sanitizeInput (jsOrStr reference (jstr "Account withdrawal"))
          recipientName := user.firstName ++ 32 :: user.lastName
          recipientBank := jstr "SECUREBANK"
          status := .completed
          completedAt := some now
          fees := withdrawalFee
          type := jstr "withdrawal" } now (some clientIP) (some userAgent)
      let newBalance := user.balance - totalDebit
      let upd := updateUserBalance txSt.2 user.id newBalance
      if ¬ upd.1 then (.err .balanceUpdateFailed, upd.2)
      else (.ok txSt.1.id newBalance totalDebit withdrawalFee, upd.2)

inductive DepositErr
  | invalidAmount
  | limitExceeded
  | balanceUpdateFailed
deriving DecidableEq

inductive DepositResp
  | err (e : DepositErr)
  | ok (transactionId : JStr) (newBalance amountCredited : ℚ)
deriving DecidableEq

/-- POST of the deposit route (part_005, second segment), after session
validation has produced `user`. -/
def depositPost (st : SecureStorage) (user : SecureUser) (amount : ℚ)
    (reference : Option JStr) (now : ℤ) (clientIP userAgent : JStr) :
    DepositResp × SecureStorage :=
  if ¬ validateTransactionAmount amount then (.err .invalidAmount, st)
  else if amount > 500000 then (.err .limitExceeded, st)
  else
    let txSt := createTransaction st
      { fromAccountNumber := jstr "SYSTEM_DEPOSIT"
        toAccountNumber := user.accountNumber
        amount := amount
        currency := jstr "ZAR"
        amountInZAR := amount
        reference := sanitizeInput (jsOrStr reference (jstr "Account deposit"))
        recipientName := user.firstName ++ 32 :: user.lastName
        recipientBank := jstr "SECUREBANK"
        status := .completed
        completedAt := some now
        fees := 0
        type := jstr "deposit" } now (some clientIP) (some userAgent)
    let newBalance := user.balance + amount
    let upd := updateUserBalance txSt.2 user.id newBalance
    if ¬ upd.1 then (.err .balanceUpdateFailed, upd.2)
    else (.ok txSt.1.id newBalance amount, upd.2)

inductive AdminCreateUserResp
  | weakPassword
  | creationFailed (e : CreateUserErr)
  | ok (user : SecureUser)
deriving DecidableEq

/-- POST of the admin create-user route (second segment of the
toggle-user-status route file), after the admin session check:
`validatePasswordStrength` then `SecureDatabase.createUser` with
`initialBalance: Number(initialBalance)` — no sign check anywhere. -/
def adminCreateUser (hashF : JStr → JStr × JStr) (accountNumber : JStr)
    (st : SecureStorage) (d : CreateUserData) (now : ℤ) :
    AdminCreateUserResp × SecureStorage :=
  if ¬ validatePasswordStrength d.password then (.weakPassword, st)
  else
    match createUser hashF accountNumber st d now with
    | (.failure e, st') => (.creationFailed e, st')
    | (.success u, st') => (.ok u, st')

/-! ## Exchange-calculation route (part_002) and risk scores -/

/-- Exchange rate table of part_002. -/
def exchangeRateFor (c : JStr) : Option ℚ :=
  if c = jstr "USD" then some (75 / 4)
  else if c = jstr "EUR" then some (409 / 20)
  else if c = jstr "GBP" then some (477 / 20)
  else if c = jstr "ZAR" then some 1
  else none

/-- Fee computation of the exchange-calculation route, by sequential
reassignment exactly as in the source. -/
def calcExchangeFees (convertedAmount : ℚ) : ℚ :=
  let fees : ℚ := 50
  let fees := if convertedAmount > 1000 then 100 else fees
  let fees := if convertedAmount > 10000 then 250 else fees
  let fees := if convertedAmount > 50000 then
    min (convertedAmount * (5 / 1000)) 500 else fees
  fees

/-- `TransactionRepository.calculateRiskScore` (part_011 lines 340-355).
The source reads `new Date().getHours()` — the ambient clock — which is
injected here as the `hour` argument; it has no recipient-novelty term.
Note `hour > 22`: hour 22 itself gets no night bump. -/
def calculateRiskScore (amountInZar : ℚ) (transactionType : JStr)
    (hour : ℕ) : ℕ :=
  min ((if amountInZar > 50000 then 30 else if amountInZar > 10000 then 15 else 0)
    + (if transactionType = jstr "international_transfer" then 20 else 0)
    + (if hour < 6 ∨ hour > 22 then 10 else 0)) 100

/-- Modelled from the spec (§4.5 Risk Scorer), for comparison with the
source: amount tier, international bump, +10 when the injected hour lies
outside [6,22), +25 when the exact (from, to) pair has no prior
*completed* transaction, capped at 100. -/
def specRiskScore (amountInZar : ℚ) (isInternational : Bool) (hour : ℕ)
    (hasPriorCompleted : Bool) : ℕ :=
  min ((if amountInZar > 50000 then 30 else if amountInZar > 10000 then 15 else 0)
    + (if isInternational then 20 else 0)
    + (if hour < 6 ∨ 22 ≤ hour then 10 else 0)
    + (if hasPriorCompleted then 0 else 25)) 100

/-- Modelled from the spec (§4.6 step 2), for comparison with the
source's fee computations: the tiered fee schedule on the settlement
amount. -/
def specTieredFee (settlement : ℚ) : ℚ :=
  if settlement ≤ 1000 then 50
  else if settlement ≤ 10000 then 100
  else if settlement ≤ 50000 then 250
  else min (settlement * (5 / 1000)) 500

/-! ## `src/lib/database` — MySQL-backed repositories and AuthService

`AuthService` binds to the MySQL `SessionRepository` variant (the one
whose `create(userId, ipAddress?, userAgent?)` / `findById` /
`delete(id)` signatures its call sites use); SQL rows become list
entries, `UPDATE … WHERE` updates every matching row. -/

structure DbUser where
  id : JStr
  email : JStr
  passwordHash : JStr
  passwordSalt : JStr
  firstName : JStr
  lastName : JStr
  role : Role
  accountNumber : JStr
  balance : ℚ
  isActive : Bool
  twoFactorEnabled : Bool
  failedLoginAttempts : ℕ
  lockedUntil : Option ℤ
  lastLogin : Option ℤ
deriving DecidableEq

/-- The TS `DatabaseUser` (`Omit<User, "passwordHash" | "passwordSalt">`). -/
structure DatabaseUser where
  id : JStr
  email : JStr
  firstName : JStr
  lastName : JStr
  role : Role
  accountNumber : JStr
  balance : ℚ
  isActive : Bool
  twoFactorEnabled : Bool
  failedLoginAttempts : ℕ
  lockedUntil : Option ℤ
  lastLogin : Option ℤ
deriving DecidableEq

/-- `const { passwordHash, passwordSalt, ...safeUser } = user`. -/
def safeUser (u : DbUser) : DatabaseUser :=
  { id := u.id, email := u.email, firstName := u.firstName
    lastName := u.lastName, role := u.role, accountNumber := u.accountNumber
    balance := u.balance, isActive := u.isActive
    twoFactorEnabled := u.twoFactorEnabled
    failedLoginAttempts := u.failedLoginAttempts
    lockedUntil := u.lockedUntil, lastLogin := u.lastLogin }

structure DbSession where
  id : JStr
  userId : JStr
  sessionToken : JStr
  ipAddress : Option JStr
  userAgent : Option JStr
  expiresAt : ℤ
  createdAt : ℤ
deriving DecidableEq

structure LoginHistoryRow where
  id : JStr
  userId : JStr
  ipAddress : Option JStr
  userAgent : Option JStr
  success : Bool
  failureReason : Option JStr
deriving DecidableEq

structure DbState where
  users : List DbUser
  sessions : List DbSession
  loginHistory : List LoginHistoryRow
deriving DecidableEq

/-- `UserRepository.findByEmailWithPassword` (`SELECT … WHERE email = ?`). -/
def findByEmailWithPassword (st : DbState) (email : JStr) : Option DbUser :=
  st.users.find? (fun u => u.email = email)

/-- `UserRepository.findById`: selects the safe columns. -/
def userFindById (st : DbState) (id : JStr) : Option DatabaseUser :=
  (st.users.find? (fun u => u.id = id)).map safeUser

/-- `UserRepository.updateLoginAttempts`
(`UPDATE users SET failed_login_attempts = ?, locked_until = ? WHERE id = ?`;
an absent `lockedUntil` is stored as NULL). -/
def updateLoginAttempts (st : DbState) (id : JStr) (attempts : ℕ)
    (lockedUntil : Option ℤ) : DbState :=
  { st with users := st.users.map (fun u =>
      if u.id = id then
        { u with failedLoginAttempts := attempts, lockedUntil := lockedUntil }
      else u) }

/-- `UserRepository.updateLastLogin`
(`SET last_login = CURRENT_TIMESTAMP, failed_login_attempts = 0, locked_until = NULL`). -/
def updateLastLogin (st : DbState) (id : JStr) (now : ℤ) : DbState :=
  { st with users := st.users.map (fun u =>
      if u.id = id then
        { u with lastLogin := some now, failedLoginAttempts := 0, lockedUntil := none }
      else u) }

/-- `UserRepository.logLoginAttempt` (`INSERT INTO login_history …`);
the `uuidv4()` row id is injected as `rowId`. -/
def logLoginAttempt (st : DbState) (rowId userId : JStr) (success : Bool)
    (ipAddress userAgent failureReason : Option JStr) : DbState :=
  { st with loginHistory := st.loginHistory ++
      [{ id := rowId, userId := userId, ipAddress := ipAddress
         userAgent := userAgent, success := success
         failureReason := failureReason }] }

/-- MySQL `SessionRepository.create(userId, ipAddress?, userAgent?)`:
generates a session id (uuid) and token (both injected), sets
`expiresAt = Date.now() + 24h`, inserts, and returns the session. -/
def sessionCreate (st : DbState) (sessionId sessionToken userId : JStr)
    (now : ℤ) (ipAddress userAgent : Option JStr) : DbSession × DbState :=
  let session : DbSession :=
    { id := sessionId, userId := userId, sessionToken := sessionToken
      ipAddress := ipAddress, userAgent := userAgent
      expiresAt := now + 86400000, createdAt := now }
  (session, { st with sessions := st.sessions ++ [session] })

/-- MySQL `SessionRepository.findById`. -/
def sessionFindById (st : DbState) (id : JStr) : Option DbSession :=
  st.sessions.find? (fun s => s.id = id)

/-- MySQL `SessionRepository.delete(id)`: deletes the rows, but its
return value is always `false` — mysql2 answers a DELETE with a
`ResultSetHeader`, so `Array.isArray(result) && result.length > 0`
never holds. -/
def sessionDelete (st : DbState) (id : JStr) : Bool × DbState :=
  (false, { st with sessions := st.sessions.filter (fun s => !(s.id = id)) })

inductive AuthErr
  | invalidEmailFormat
  | invalidCredentials
  | accountLocked
  | accountDeactivated
  | invalidCredentialsRemaining (remaining : ℤ)
deriving DecidableEq

inductive AuthResult
  | failure (e : AuthErr)
  | success (user : DatabaseUser) (token : JStr)
deriving DecidableEq

/-- `AuthService.authenticate` (src/lib/services/auth-service.ts).
`verifyPwd` abstracts the PBKDF2 `SecureCrypto.verifyPassword`; `enc`
abstracts `JSON.stringify` of the JWT payload; `logId`,
`freshSessionId`, `freshToken` inject the uuid / random-token values;
`secret` is `process.env.JWT_SECRET || "fallback-secret"`. -/
def authenticate (verifyPwd : JStr → JStr → JStr → Bool)
    (enc : SDPayload → JStr) (secret : JStr) (st : DbState)
    (email password : JStr) (now : ℤ) (logId freshSessionId freshToken : JStr)
    (ipAddress userAgent : Option JStr) : AuthResult × DbState :=
  if ¬ emailPat email then (.failure .invalidEmailFormat, st)
  else
    match findByEmailWithPassword st email with
    | none => (.failure .invalidCredentials, st)
    | some user =>
      if (match user.lockedUntil with
          | some t => decide (now < t)
          | none => false) then
        (.failure .accountLocked,
          logLoginAttempt st logId user.id false ipAddress userAgent
            (some (jstr "Account locked")))
      else if ¬ user.isActive then
        (.failure .accountDeactivated,
          logLoginAttempt st logId user.id false ipAddress userAgent
            (some (jstr "Account deactivated")))
      else if ¬ verifyPwd password user.passwordHash user.passwordSalt then
        let newAttempts := user.failedLoginAttempts + 1
        let lockedUntil := if newAttempts ≥ 5 then some (now + 900000) else none
        let st1 := updateLoginAttempts st user.id newAttempts lockedUntil
        let st2 := logLoginAttempt st1 logId user.id false ipAddress userAgent
          (some (jstr "Invalid password"))
        (.failure (.invalidCredentialsRemaining (5 - (newAttempts : ℤ))), st2)
      else
        let st1 := updateLastLogin st user.id now
        let st2 := logLoginAttempt st1 logId user.id true ipAddress userAgent none
        let sessionSt := sessionCreate st2 freshSessionId freshToken user.id now
          ipAddress userAgent
        let token := generateJWT
          (enc { userId := user.id, sessionId := sessionSt.1.id
                 role := user.role, exp := sessionSt.1.expiresAt }) secret
        (.success (safeUser user) token, sessionSt.2)

/-- `AuthService.validateSession`.  Returns the state unchanged — the
source performs only SELECTs; returning it makes "no state change"
provable rather than implicit. -/
def authValidateSession (dec : JStr → Option SDPayload) (secret : JStr)
    (st : DbState) (token : JStr) (now : ℤ) : Option DatabaseUser × DbState :=
  match (verifyJWT token secret).bind dec with
  | none => (none, st)
  | some payload =>
    if payload.exp < now then (none, st)
    else
      match sessionFindById st payload.sessionId with
      | none => (none, st)
      | some session =>
        if session.expiresAt < now then (none, st)
        else
          match userFindById st payload.userId with
          | none => (none, st)
          | some user =>
            if ¬ user.isActive then (none, st) else (some user, st)

/-- `AuthService.logout(sessionId)`: `Promise<void>` — deletes matching
session rows, swallows errors, and returns no value. -/
def serviceLogout (st : DbState) (sessionId : JStr) : DbState :=
  (sessionDelete st sessionId).2

inductive LogoutResp
  | noToken
  | failedToLogout
  | loggedOut
deriving DecidableEq

/-- POST /api/auth/logout.  The route binds
`const success = await AuthService.logout(token)`, but `logout` returns
`Promise<void>`, so `success` is always `undefined` and `if (!success)`
always takes the 500 "Failed to logout" branch; the `loggedOut` answer
is unreachable. -/
def logoutRoute (st : DbState) (authHeader : Option JStr) :
    LogoutResp × DbState :=
  match authHeader with
  | none => (.noToken, st)
  | some h =>
    if ¬ beginsWith (jstr "Bearer ") h then (.noToken, st)
    else
      let token := h.drop 7
      let st' := serviceLogout st token
      (.failedToLogout, st')

/-! ## Derived definitions used only in statements -/

/-- Secret recovery from a single observed token: base64-decode the
third dot-separated segment and drop everything through its second dot.
(The decoded segment is `<encodedHeader>.<encodedPayload>.<secret>`,
and the two base64 segments cannot contain a dot.) -/
def extractSecret (token : JStr) : Option JStr :=
  match splitOnCode 46 token with
  | _ :: _ :: s :: _ => (atob s).map (fun d => dropAfterDot (dropAfterDot d))
  | _ => none

/-- Forge a token for an arbitrary payload from one observed token. -/
def forgeToken (q token : JStr) : JStr :=
  match extractSecret token with
  | some secret => generateJWT q secret
  | none => []

/-- Invariant of claim C2: every stored account balance is ≥ 0. -/
def balancesNonneg (st : SecureStorage) : Prop :=
  ∀ u ∈ st.users, 0 ≤ u.balance

/-- Role tag used by the concrete witness codec. -/
def roleCode : Role → Nat
  | .admin => 1
  | .customer => 2

/-- Decimal-digit decoding, inverse of `jstrOfNat` (witness codec only). -/
def decDigits (s : JStr) : ℕ :=
  s.foldl (fun acc d => acc * 10 + (d - 48)) 0

/-- Concrete payload serialiser standing in for `JSON.stringify` in the
witnesses: fields separated by NUL, expiry in decimal digits. -/
def wEnc (p : SDPayload) : JStr :=
  p.userId ++ 0 :: p.sessionId ++ 0 :: roleCode p.role :: 0 :: jstrOfNat p.exp.toNat

/-- Concrete payload deserialiser standing in for `JSON.parse` in the
witnesses. -/
def wDec (s : JStr) : Option SDPayload :=
  match splitOnCode 0 s with
  | [uid, sid, [r], e] =>
      some { userId := uid, sessionId := sid
             role := if r = 1 then Role.admin else Role.customer
             exp := (decDigits e : ℤ) }
  | _ => none

/-- `true` iff `SecureDatabase.createUser` reported success. -/
def isCreateSuccess : CreateUserResult → Bool
  | .success _ => true
  | .failure _ => false

/-- `true` iff some stored transaction already links the (from, to) pair
of `d` (the novelty test of `SecureDatabase.createTransaction`). -/
def pairExists (txs : List SecureTransaction) (d : CreateTxData) : Bool :=
  !((txs.filter (fun t =>
      t.fromAccountNumber = d.fromAccountNumber &&
      t.toAccountNumber = d.toAccountNumber)).length = 0)

/-! ### Concrete fixtures for witnesses and counterexamples -/

/-- A stored customer with balance 25,000 (the spec's withdrawal scenario). -/
def uAlice : SecureUser :=
  { id := jstr "1", email := jstr "a@b.co", passwordHash := jstr "H"
    passwordSalt := jstr "S", firstName := jstr "Jo", lastName := jstr "Do"
    role := .customer, accountNumber := jstr "6200000001", balance := 25000
    isActive := true, createdAt := 0, lastLogin := none
    failedLoginAttempts := 0, lockedUntil := none, sessionId := none
    twoFactorEnabled := false, loginHistory := [] }

/-- In-memory storage holding only `uAlice`. -/
def stAlice : SecureStorage := { users := [uAlice], transactions := [], sessions := [] }

/-- A transfer request that passes every format check but exceeds
`uAlice`'s balance (zar 30,000 + fees 50 > 25,000). -/
def reqTooBig : TransferReq :=
  { recipientName := jstr "Jo Do", recipientEmail := jstr "a@b.co"
    recipientBank := jstr "ABSAZAJJ", recipientAccount := jstr "6200000002"
    amount := 1600, currency := jstr "USD", reference := jstr "rent"
    exchangeRate := 1, zarAmount := 30000, fees := 50 }

/-- A transfer request that is accepted but carries a client-chosen fee
of 1 on a settlement of 5,000 (the tiered schedule says 100). -/
def reqFee1 : TransferReq :=
  { recipientName := jstr "Jo Do", recipientEmail := jstr "a@b.co"
    recipientBank := jstr "ABSAZAJJ", recipientAccount := jstr "6200000002"
    amount := 266, currency := jstr "USD", reference := jstr "rent"
    exchangeRate := 1, zarAmount := 5000, fees := 1 }

/-- Admin-route payload with a format-valid password but a negative
initial balance. -/
def cDataNeg : CreateUserData :=
  { email := jstr "n@b.co", firstName := jstr "Jo", lastName := jstr "Do"
    password := jstr "Aa1@aaaa", initialBalance := -100 }

/-- The same payload with a positive initial balance. -/
def cDataPos : CreateUserData :=
  { email := jstr "n@b.co", firstName := jstr "Jo", lastName := jstr "Do"
    password := jstr "Aa1@aaaa", initialBalance := 100 }

/-- A completed transaction already linking `6200000001 → 6200000002`. -/
def txAB : SecureTransaction :=
  { id := jstr "1", fromAccountNumber := jstr "6200000001"
    toAccountNumber := jstr "6200000002", amount := 10, currency := jstr "ZAR"
    amountInZAR := 10, reference := jstr "r", recipientName := jstr "Jo Do"
    recipientBank := jstr "ABSAZAJJ", status := .completed, createdAt := 0
    completedAt := some 0, fees := 0, type := jstr "domestic_transfer"
    ipAddress := none, userAgent := none, riskScore := 0 }

/-- Storage whose only transaction is `txAB`. -/
def stC8 : SecureStorage := { users := [], transactions := [txAB], sessions := [] }

/-- Creation data for a small, non-international transaction on the
`6200000001 → 6200000002` pair. -/
def dSmall : CreateTxData :=
  { fromAccountNumber := jstr "6200000001", toAccountNumber := jstr "6200000002"
    amount := 100, currency := jstr "ZAR", amountInZAR := 100
    reference := jstr "r", recipientName := jstr "Jo Do"
    recipientBank := jstr "ABSAZAJJ", status := .completed
    completedAt := some 0, fees := 0, type := jstr "deposit" }

/-- A stored SQL user for the AuthService witnesses. -/
def dbuBob : DbUser :=
  { id := jstr "1", email := jstr "a@b.co", passwordHash := jstr "pw"
    passwordSalt := jstr "s", firstName := jstr "Jo", lastName := jstr "Do"
    role := .customer, accountNumber := jstr "6200000001", balance := 100
    isActive := true, twoFactorEnabled := false, failedLoginAttempts := 0
    lockedUntil := none, lastLogin := none }

/-- A stored SQL session for the validateSession witness. -/
def dbsS1 : DbSession :=
  { id := jstr "s1", userId := jstr "1", sessionToken := jstr "t1"
    ipAddress := none, userAgent := none, expiresAt := 5, createdAt := 0 }

/-- The JWT payload matching `dbsS1` and `dbuBob`. -/
def pS1 : SDPayload :=
  { userId := jstr "1", sessionId := jstr "s1", role := .customer, exp := 5 }

/-- Bob with four failed attempts already on record. -/
def dbuBob4 : DbUser := { dbuBob with failedLoginAttempts := 4 }

/-- A one-user SQL state with the given sessions. -/
def dbStOf (u : DbUser) (ss : List DbSession) : DbState :=
  { users := [u], sessions := ss, loginHistory := [] }

/-- `true` payload-bearing token of an `SDAuthResult`. -/
def sdToken : SDAuthResult → Option JStr
  | .success _ t => some t
  | .failure _ => none

/-- Password check used by the SecureDatabase login fixtures: plaintext
equals stored hash. -/
def c9vp : JStr → JStr → JStr → Bool := fun p h _ => p == h

/-- The user record written back by a successful
`SecureDatabase.authenticateUser` (attempts cleared, lock lifted,
`sessionId` overwritten with the fresh session id). -/
def postLoginUser (user : SecureUser) (now : ℤ) (sid ip ua : JStr) : SecureUser :=
  { user with
    failedLoginAttempts := 0
    lockedUntil := none
    lastLogin := some now
    sessionId := some sid
    loginHistory := keepLast10 (user.loginHistory ++ [LoginAttempt.mk now ip ua true]) }

/-- Alice's first login, creating session `s1`. -/
def c9login1 : SDAuthResult × SecureStorage :=
  authenticateUser c9vp wEnc (jstr "k") stAlice (jstr "a@b.co") (jstr "H") 0
    (jstr "s1") (jstr "i") (jstr "u")

/-- Alice's second login, creating session `s2` while `s1` is still stored. -/
def c9login2 : SDAuthResult × SecureStorage :=
  authenticateUser c9vp wEnc (jstr "k") c9login1.2 (jstr "a@b.co") (jstr "H") 0
    (jstr "s2") (jstr "i") (jstr "u")

/-- The token issued by the first login. -/
def c9tok1 : JStr :=
  generateJWT (wEnc (SDPayload.mk (jstr "1") (jstr "s1") Role.customer 86400000)) (jstr "k")

/-- The token issued by the second login. -/
def c9tok2 : JStr :=
  generateJWT (wEnc (SDPayload.mk (jstr "1") (jstr "s2") Role.customer 86400000)) (jstr "k")

/-! ## Theorems — base64 and JWT groundwork -/

lemma sextetChar_ne_46 (n : ℕ) : sextetChar n ≠ 46 := by
  unfold sextetChar
  repeat first | omega | split

lemma sextetChar_ne_61 (n : ℕ) : sextetChar n ≠ 61 := by
  unfold sextetChar
  repeat first | omega | split

lemma sextetChar_lt_256 (n : ℕ) : sextetChar n < 256 := by
  unfold sextetChar
  repeat first | omega | split

lemma sextetVal_sextetChar (n : ℕ) (h : n < 64) :
    sextetVal (sextetChar n) = some n := by
  have H : ∀ m : Fin 64, sextetVal (sextetChar m.val) = some m.val := by decide
  exact H ⟨n, h⟩

lemma mem_btoa {c : Nat} {s : JStr} (hc : c ∈ btoa s) :
    (∃ n, c = sextetChar n) ∨ c = 61 := by
  induction s using btoa.induct with
  | case1 => simp [btoa] at hc
  | case2 a =>
      simp only [btoa, List.mem_cons, List.not_mem_nil, or_false] at hc
      rcases hc with h | h | h | h
      · exact .inl ⟨_, h⟩
      · exact .inl ⟨_, h⟩
      · exact .inr h
      · exact .inr h
  | case3 a b =>
      simp only [btoa, List.mem_cons, List.not_mem_nil, or_false] at hc
      rcases hc with h | h | h | h
      · exact .inl ⟨_, h⟩
      · exact .inl ⟨_, h⟩
      · exact .inl ⟨_, h⟩
      · exact .inr h
  | case4 a b d rest ih =>
      simp only [btoa, List.mem_cons] at hc
      rcases hc with h | h | h | h | h
      · exact .inl ⟨_, h⟩
      · exact .inl ⟨_, h⟩
      · exact .inl ⟨_, h⟩
      · exact .inl ⟨_, h⟩
      · exact ih h

lemma latin1_btoa (s : JStr) : Latin1 (btoa s) := by
  intro c hc
  rcases mem_btoa hc with ⟨n, rfl⟩ | rfl
  · exact sextetChar_lt_256 n
  · omega

lemma btoa_ne_46 (s : JStr) : ∀ c ∈ btoa s, c ≠ 46 := by
  intro c hc
  rcases mem_btoa hc with ⟨n, rfl⟩ | rfl
  · exact sextetChar_ne_46 n
  · omega

lemma latin1_cons {c : Nat} {s : JStr} (hc : c < 256) (hs : Latin1 s) :
    Latin1 (c :: s) := by
  intro d hd
  rcases List.mem_cons.1 hd with rfl | h
  · exact hc
  · exact hs d h

lemma latin1_append (xs ys : JStr) (hx : Latin1 xs) (hy : Latin1 ys) :
    Latin1 (xs ++ ys) := by
  intro c hc
  rcases List.mem_append.1 hc with h | h
  · exact hx c h
  · exact hy c h

lemma atob_btoa (s : JStr) (h : Latin1 s) : atob (btoa s) = some s := by
  induction s using btoa.induct with
  | case1 => rfl
  | case2 a =>
      have ha : a < 256 := h a (by simp)
      have hv1 := sextetVal_sextetChar (a / 4) (by omega)
      have hv2 := sextetVal_sextetChar (a % 4 * 16) (by omega)
      simp [btoa, atob, hv1, hv2]
      omega
  | case3 a b =>
      have ha : a < 256 := h a (by simp)
      have hb : b < 256 := h b (by simp)
      have hv1 := sextetVal_sextetChar (a / 4) (by omega)
      have hv2 := sextetVal_sextetChar (a % 4 * 16 + b / 16) (by omega)
      have hv3 := sextetVal_sextetChar (b % 16 * 4) (by omega)
      simp [btoa, atob, hv1, hv2, hv3, sextetChar_ne_61]
      omega
  | case4 a b c rest ih =>
      have ha : a < 256 := h a (by simp)
      have hb : b < 256 := h b (by simp)
      have hc : c < 256 := h c (by simp)
      have hrest : Latin1 rest := fun d hd => h d (by simp [hd])
      have hv1 := sextetVal_sextetChar (a / 4) (by omega)
      have hv2 := sextetVal_sextetChar (a % 4 * 16 + b / 16) (by omega)
      have hv3 := sextetVal_sextetChar (b % 16 * 4 + c / 64) (by omega)
      have hv4 := sextetVal_sextetChar (c % 64) (by omega)
      simp [btoa, atob, hv1, hv2, hv3, hv4, sextetChar_ne_61, ih hrest]
      omega

lemma splitOnCode_no_sep (sep : Nat) (xs : JStr) (h : ∀ c ∈ xs, c ≠ sep) :
    splitOnCode sep xs = [xs] := by
  induction xs with
  | nil => rfl
  | cons c rest ih =>
      have hc : c ≠ sep := h c (by simp)
      have hrest : ∀ d ∈ rest, d ≠ sep := fun d hd => h d (by simp [hd])
      simp only [splitOnCode, if_neg hc, ih hrest]

lemma splitOnCode_append (sep : Nat) (xs ys : JStr) (h : ∀ c ∈ xs, c ≠ sep) :
    splitOnCode sep (xs ++ sep :: ys) = xs :: splitOnCode sep ys := by
  induction xs with
  | nil => simp [splitOnCode]
  | cons c rest ih =>
      have hc : c ≠ sep := h c (by simp)
      have hrest : ∀ d ∈ rest, d ≠ sep := fun d hd => h d (by simp [hd])
      have hih := ih hrest
      simp only [List.cons_append, splitOnCode, if_neg hc, List.append_eq]
      rw [hih]

lemma dropAfterDot_append (xs ys : JStr) (h : ∀ c ∈ xs, c ≠ 46) :
    dropAfterDot (xs ++ 46 :: ys) = ys := by
  induction xs with
  | nil => simp [dropAfterDot]
  | cons c rest ih =>
      have hc : c ≠ 46 := h c (by simp)
      have hrest : ∀ d ∈ rest, d ≠ 46 := fun d hd => h d (by simp [hd])
      simp only [List.cons_append, dropAfterDot, if_neg hc]
      exact ih hrest

/-- The generated token, flattened to `header .. "." .. payload .. "." .. sig`. -/
lemma jwt_shape (payload secret : JStr) :
    generateJWT payload secret =
      btoa headerJson ++ 46 ::
        (btoa payload ++ 46 ::
          btoa ((btoa headerJson ++ 46 :: btoa payload) ++ 46 :: secret)) := by
  simp [generateJWT, List.append_assoc]

/-- The three dot-separated segments of a generated token. -/
lemma splitOnCode_generateJWT (payload secret : JStr) :
    splitOnCode 46 (generateJWT payload secret) =
      [btoa headerJson, btoa payload,
       btoa ((btoa headerJson ++ 46 :: btoa payload) ++ 46 :: secret)] := by
  rw [jwt_shape]
  rw [splitOnCode_append 46 _ _ (btoa_ne_46 _),
    splitOnCode_append 46 _ _ (btoa_ne_46 _),
    splitOnCode_no_sep 46 _ (btoa_ne_46 _)]

/-- A generated token verifies under the generating secret, exposing the
payload. -/
lemma verifyJWT_generateJWT (payload secret : JStr) (hpay : Latin1 payload) :
    verifyJWT (generateJWT payload secret) secret = some payload := by
  unfold verifyJWT
  rw [splitOnCode_generateJWT]
  simp only
  rw [if_pos (by simp [List.append_assoc])]
  exact atob_btoa _ hpay

lemma latin1_sig_arg (payload secret : JStr) (hsec : Latin1 secret) :
    Latin1 ((btoa headerJson ++ 46 :: btoa payload) ++ 46 :: secret) :=
  latin1_append _ _
    (latin1_append _ _ (latin1_btoa _) (latin1_cons (by omega) (latin1_btoa _)))
    (latin1_cons (by omega) hsec)

/-- The secret drops out of any generated token. -/
lemma extractSecret_generateJWT (payload secret : JStr) (hsec : Latin1 secret) :
    extractSecret (generateJWT payload secret) = some secret := by
  unfold extractSecret
  rw [splitOnCode_generateJWT]
  have hshape : (btoa headerJson ++ 46 :: btoa payload) ++ 46 :: secret =
      btoa headerJson ++ 46 :: (btoa payload ++ 46 :: secret) := by
    simp [List.append_assoc]
  have hlat2 : Latin1 (btoa headerJson ++ 46 :: (btoa payload ++ 46 :: secret)) := by
    rw [← hshape]
    exact latin1_sig_arg payload secret hsec
  simp only [hshape, atob_btoa _ hlat2, Option.map_some']
  rw [dropAfterDot_append _ _ (btoa_ne_46 _),
    dropAfterDot_append _ _ (btoa_ne_46 _)]

/-- C10: the "signature" of `generateJWT` is just
`btoa(header + "." + payload + "." + secret)`, so base64-decoding the
third dot-separated segment of any valid token is
`<encodedHeader>.<encodedPayload>.<secret>`, the secret is computable
from one observed token (`extractSecret`), and from that token an
attacker forges, for any chosen payload `q`, a token that `verifyJWT`
accepts under the same secret. -/
theorem c10_jwt_embeds_secret_and_is_forgeable (payload secret q : JStr)
    (_hpay : Latin1 payload) (hsec : Latin1 secret) (hq : Latin1 q) :
    atob ((splitOnCode 46 (generateJWT payload secret)).getD 2 []) =
        some ((btoa headerJson ++ 46 :: btoa payload) ++ 46 :: secret)
    ∧ extractSecret (generateJWT payload secret) = some secret
    ∧ verifyJWT (forgeToken q (generateJWT payload secret)) secret = some q := by
  refine ⟨?_, extractSecret_generateJWT payload secret hsec, ?_⟩
  · rw [splitOnCode_generateJWT]
    simpa using atob_btoa _ (latin1_sig_arg payload secret hsec)
  · unfold forgeToken
    rw [extractSecret_generateJWT payload secret hsec]
    exact verifyJWT_generateJWT q secret hq

/-- Witness for C10 at concrete strings: payload `"p"`, secret `"kZ"`,
forged payload `"q"`. -/
theorem c10_witness :
    verifyJWT (forgeToken (jstr "q") (generateJWT (jstr "p") (jstr "kZ")))
      (jstr "kZ") = some (jstr "q") :=
  (c10_jwt_embeds_secret_and_is_forgeable (jstr "p") (jstr "kZ") (jstr "q")
    (by decide) (by decide) (by decide)).2.2

/-! ## Theorems — list-state helpers -/

lemma beginsWith_append (pre rest : JStr) : beginsWith pre (pre ++ rest) = true := by
  induction pre with
  | nil => rfl
  | cons c cs ih => simp [beginsWith, ih]

lemma mem_updateFirst {p : α → Bool} {f : α → α} {l : List α} {x : α}
    (hx : x ∈ updateFirst p f l) : x ∈ l ∨ ∃ y ∈ l, x = f y := by
  induction l with
  | nil => simp [updateFirst] at hx
  | cons a as ih =>
      simp only [updateFirst] at hx
      by_cases hp : p a
      · rw [if_pos hp] at hx
        rcases List.mem_cons.1 hx with rfl | h
        · exact .inr ⟨a, by simp⟩
        · exact .inl (by simp [h])
      · rw [if_neg hp] at hx
        rcases List.mem_cons.1 hx with rfl | h
        · exact .inl (by simp)
        · rcases ih h with h2 | ⟨y, hy, rfl⟩
          · exact .inl (by simp [h2])
          · exact .inr ⟨y, by simp [hy]⟩

lemma find?_updateFirst (p : α → Bool) (f : α → α) (l : List α)
    (hpf : ∀ x, p x = true → p (f x) = true) :
    (updateFirst p f l).find? p = (l.find? p).map f := by
  induction l with
  | nil => rfl
  | cons a as ih =>
      simp only [updateFirst]
      by_cases hp : p a
      · rw [if_pos hp]
        rw [List.find?_cons_of_pos _ (hpf a hp), List.find?_cons_of_pos _ hp]
        rfl
      · rw [if_neg hp]
        rw [List.find?_cons_of_neg _ hp, List.find?_cons_of_neg _ hp]
        exact ih

lemma createTransaction_users (st : SecureStorage) (d : CreateTxData) (now : ℤ)
    (ip ua : Option JStr) : (createTransaction st d now ip ua).2.users = st.users := rfl

lemma createTransaction_sessions (st : SecureStorage) (d : CreateTxData) (now : ℤ)
    (ip ua : Option JStr) :
    (createTransaction st d now ip ua).2.sessions = st.sessions := rfl

lemma updateUserBalance_transactions (st : SecureStorage) (uid : JStr) (nb : ℚ) :
    (updateUserBalance st uid nb).2.transactions = st.transactions := by
  unfold updateUserBalance
  split <;> rfl

lemma balancesNonneg_updateUserBalance (st : SecureStorage) (uid : JStr) (nb : ℚ)
    (hst : balancesNonneg st) (hnb : 0 ≤ nb) :
    balancesNonneg (updateUserBalance st uid nb).2 := by
  unfold updateUserBalance
  split
  · intro x hx
    rcases mem_updateFirst hx with h | ⟨y, hy, rfl⟩
    · exact hst x h
    · exact hnb
  · exact hst

/-! ## C7 — the logout route never acknowledges success -/

/-- C7: for every state and bearer token, the logout route answers the
500 "Failed to logout" error: `AuthService.logout` returns
`Promise<void>`, the route reads that `undefined` as a failure flag, so
the claimed idempotent success acknowledgement is unreachable.  (The
session rows matching the raw token as a session *id* are still
deleted.) -/
theorem c7_logout_route_always_fails (st : DbState) (token : JStr) :
    (logoutRoute st (some (jstr "Bearer " ++ token))).1 =
      LogoutResp.failedToLogout := by
  have hb : beginsWith (jstr "Bearer ") (jstr "Bearer " ++ token) = true :=
    beginsWith_append _ _
  simp [logoutRoute, hb]

/-! ## C1 — rejected transfers mutate nothing -/

/-- C1: whenever the international-transfer route rejects a request —
for any of the nine field validations, for `InsufficientFunds`
(`totalDebit = zarAmount + fees > balance`, checked before any
mutation), or for the limit check — the storage is returned untouched:
no balance changes and no Transaction record is created.  The only
error issued after a mutation is the unreachable-in-practice
`balanceUpdateFailed` (storage lost the authenticated user mid-call),
which the claim does not cover. -/
theorem c1_rejected_transfer_changes_nothing (st : SecureStorage)
    (user : SecureUser) (req : TransferReq) (now : ℤ) (ip ua : JStr)
    (e : TransferErr)
    (h : (transferPost st user req now ip ua).1 = .err e)
    (he : e ≠ .balanceUpdateFailed) :
    (transferPost st user req now ip ua).2 = st := by
  unfold transferPost at h ⊢
  generalize transferValidation req = v at h ⊢
  rcases v with _ | e2 <;> dsimp only at h ⊢
  split_ifs at h ⊢ <;>
    first
    | rfl
    | exact TransferResp.noConfusion h
    | exact TransferResp.noConfusion h fun h2 => absurd h2.symm he

set_option maxHeartbeats 1000000 in
/-- Witness for C1: `uAlice` (balance 25,000) requests a transfer of
zar 30,000 + fees 50; the route rejects with `insufficientBalance` and
the storage is exactly `stAlice` afterwards. -/
theorem c1_witness :
    (transferPost stAlice uAlice reqTooBig 0 [] []).1 =
        TransferResp.err .insufficientBalance
    ∧ (transferPost stAlice uAlice reqTooBig 0 [] []).2 = stAlice := by
  have hval : transferValidation reqTooBig = none := by
    simp +decide only [transferValidation, reqTooBig]
    norm_num [validateTransactionAmount]
  have hrej : (transferPost stAlice uAlice reqTooBig 0 [] []).1 =
      TransferResp.err .insufficientBalance := by
    simp only [transferPost, hval]
    norm_num [stAlice, uAlice, reqTooBig]
  exact ⟨hrej, c1_rejected_transfer_changes_nothing stAlice uAlice reqTooBig 0 [] []
    .insufficientBalance hrej (by simp)⟩


/-! ## C4 — withdrawals -/

/-- C4: for a withdrawal of a valid amount `a ≤ 50,000` from a stored
account with balance `b`: the fee is `min(0.1% × a, 50)`; if
`a + fee > b` the route fails `insufficientBalance` with the storage
untouched; otherwise it succeeds with new balance `b − a − fee`,
records it on the account, and appends a Transaction of type
`withdrawal`, status `completed`, `toAccountRef` the
`SYSTEM_WITHDRAWAL` sentinel, carrying the fee. -/
theorem c4_withdraw_spec (st : SecureStorage) (user : SecureUser) (amount : ℚ)
    (reference : Option JStr) (now : ℤ) (ip ua : JStr)
    (hval : validateTransactionAmount amount = true)
    (hlim : amount ≤ 50000)
    (hfind : st.users.find? (fun u => u.id = user.id) = some user) :
    (amount + min (amount * (1 / 1000)) 50 > user.balance →
      (withdrawPost st user amount reference now ip ua).1 =
          .err .insufficientBalance
      ∧ (withdrawPost st user amount reference now ip ua).2 = st)
    ∧ (amount + min (amount * (1 / 1000)) 50 ≤ user.balance →
      (withdrawPost st user amount reference now ip ua).1 =
        .ok (jstrOfNat (st.transactions.length + 1))
          (user.balance - amount - min (amount * (1 / 1000)) 50)
          (amount + min (amount * (1 / 1000)) 50)
          (min (amount * (1 / 1000)) 50)
      ∧ (withdrawPost st user amount reference now ip ua).2.transactions.map
            (fun t => (t.type, t.status, t.toAccountNumber, t.fees)) =
          st.transactions.map (fun t => (t.type, t.status, t.toAccountNumber, t.fees))
            ++ [(jstr "withdrawal", TxStatus.completed, jstr "SYSTEM_WITHDRAWAL",
                 min (amount * (1 / 1000)) 50)]
      ∧ ((withdrawPost st user amount reference now ip ua).2.users.find?
            (fun u => u.id = user.id)).map (·.balance) =
          some (user.balance - amount - min (amount * (1 / 1000)) 50)) := by
  have hvali : ¬ (¬ validateTransactionAmount amount = true) := by simp [hval]
  have hlim' : ¬ (amount > 50000) := not_lt.2 hlim
  constructor
  · intro hgt
    refine ⟨?_, ?_⟩ <;>
      simp only [withdrawPost, if_neg hvali, if_neg hlim', if_pos hgt]
  · intro hle
    have hngt : ¬ (amount + min (amount * (1 / 1000)) 50 > user.balance) :=
      not_lt.2 hle
    refine ⟨?_, ?_, ?_⟩ <;>
      simp only [withdrawPost, if_neg hvali, if_neg hlim', if_neg hngt] <;>
      simp only [updateUserBalance, createTransaction_users, hfind,
        Option.isSome_some, if_true] <;>
      rw [if_neg (by simp)]
    · rw [sub_sub]
      rfl
    · simp only [createTransaction]
      rw [List.map_append]
      rfl
    · have hpf : ∀ x : SecureUser,
          (fun u : SecureUser => (decide (u.id = user.id) : Bool)) x = true →
          (fun u : SecureUser => (decide (u.id = user.id) : Bool))
            ({ x with balance :=
              user.balance - (amount + min (amount * (1 / 1000)) 50) }) = true :=
        fun x hx => hx
      rw [find?_updateFirst _ _ _ hpf, hfind]
      rw [sub_sub]
      rfl

/-- Witness for C4, the spec's scenario: balance 25,000.00, withdraw
1,000.00 → fee min(1.00, 50) = 1.00, amount debited 1,001.00, new
balance 23,999.00, first transaction id "1". -/
theorem c4_withdraw_witness :
    (withdrawPost stAlice uAlice 1000 none 0 [] []).1 =
      WithdrawResp.ok (jstr "1") 23999 1001 1 := by
  have h := ((c4_withdraw_spec stAlice uAlice 1000 none 0 [] []
      (by norm_num [validateTransactionAmount])
      (by norm_num)
      (by decide)).2 (by norm_num [uAlice])).1
  rw [h]
  norm_num [stAlice, uAlice]
  decide

/-! ## C3 — transfer fees -/

set_option maxHeartbeats 1000000 in
/-- Counterexample to C3 as stated: the transfer route accepts a
transfer with settlement 5,000 and a client-supplied fee of 1 (any
positive amount with ≤ 2 decimals passes `validateTransactionAmount`),
records fee 1 on the transaction and debits 5,001 — while the tiered
schedule prescribes 100 for a settlement of 5,000. -/
theorem c3_counterexample :
    (transferPost stAlice uAlice reqFee1 0 [] []).1 = .ok (jstr "1") 19999 5001
    ∧ (transferPost stAlice uAlice reqFee1 0 [] []).2.transactions.map (·.fees) = [1]
    ∧ specTieredFee 5000 = 100 ∧ (1 : ℚ) ≠ 100 := by
  have hval : transferValidation reqFee1 = none := by
    simp +decide only [transferValidation, reqFee1]
    norm_num [validateTransactionAmount]
  refine ⟨?_, ?_, by norm_num [specTieredFee], by norm_num⟩
  · simp only [transferPost, hval]
    norm_num [stAlice, uAlice, reqFee1, updateUserBalance, createTransaction,
      updateFirst]
    decide
  · simp only [transferPost, hval]
    norm_num [stAlice, uAlice, reqFee1, updateUserBalance, createTransaction,
      updateFirst]

/-- C3 amended: the tiered schedule lives only in the exchange-
calculation route, whose fee computation agrees with the spec's
schedule for every settlement amount; the transfer route itself never
recomputes it — it records whatever `fees` value the client supplied
(validated only as a positive ≤ 1,000,000 amount) on the transaction
and inside `totalDebit`. -/
theorem c3_fee_schedule_amended :
    (∀ c : ℚ, calcExchangeFees c = specTieredFee c)
    ∧ (∀ (st : SecureStorage) (user : SecureUser) (req : TransferReq) (now : ℤ)
        (ip ua : JStr) (txid : JStr) (nb ad : ℚ),
        (transferPost st user req now ip ua).1 = .ok txid nb ad →
        (transferPost st user req now ip ua).2.transactions.map (·.fees) =
          st.transactions.map (·.fees) ++ [req.fees]) := by
  constructor
  · intro c
    unfold calcExchangeFees specTieredFee
    split_ifs <;> first | rfl | linarith
  · intro st user req now ip ua txid nb ad h
    unfold transferPost at h ⊢
    generalize transferValidation req = v at h ⊢
    (rcases v with _ | e2; dsimp only at h ⊢)
    · split_ifs at h ⊢ <;>
        first
        | exact TransferResp.noConfusion h
        | (rw [updateUserBalance_transactions]
           simp [createTransaction, List.map_append])
    · exact TransferResp.noConfusion h

set_option maxHeartbeats 1000000 in
/-- Witness for the amended C3: the schedule agreement at settlement
5,000, and the accepted `reqFee1` transfer recording its client fee. -/
theorem c3_amended_witness :
    calcExchangeFees 5000 = specTieredFee 5000
    ∧ (transferPost stAlice uAlice reqFee1 0 [] []).2.transactions.map (·.fees) =
        stAlice.transactions.map (·.fees) ++ [reqFee1.fees] := by
  refine ⟨c3_fee_schedule_amended.1 5000, ?_⟩
  refine c3_fee_schedule_amended.2 stAlice uAlice reqFee1 0 [] []
    (jstr "1") 19999 5001 ?_
  have hval : transferValidation reqFee1 = none := by
    simp +decide only [transferValidation, reqFee1]
    norm_num [validateTransactionAmount]
  simp only [transferPost, hval]
  norm_num [stAlice, uAlice, reqFee1, updateUserBalance, createTransaction,
    updateFirst]
  decide

/-! ## C2 — balances never negative -/

set_option maxHeartbeats 1000000 in
/-- Counterexample to C2 as stated: `SecureDatabase.createUser` (via the
admin route's `Number(initialBalance)`) never validates the initial
balance, so creating a user with `initialBalance = -100` succeeds and
stores an account whose balance is −100 < 0. -/
theorem c2_counterexample :
    isCreateSuccess (createUser (fun _ => (jstr "H", jstr "S")) (jstr "6200000003")
        { users := [], transactions := [], sessions := [] } cDataNeg 0).1 = true
    ∧ (createUser (fun _ => (jstr "H", jstr "S")) (jstr "6200000003")
        { users := [], transactions := [], sessions := [] } cDataNeg 0).2.users.map
          (·.balance) = [-100]
    ∧ ¬ balancesNonneg (createUser (fun _ => (jstr "H", jstr "S")) (jstr "6200000003")
        { users := [], transactions := [], sessions := [] } cDataNeg 0).2 := by
  refine ⟨by decide, by decide, ?_⟩
  simp only [balancesNonneg]
  decide

lemma validateTransactionAmount_pos {a : ℚ}
    (h : validateTransactionAmount a = true) : 0 < a := by
  unfold validateTransactionAmount at h
  simp only [Bool.and_eq_true, decide_eq_true_eq] at h
  exact h.1.1

/-- Transport of the nonnegativity invariant along a state whose
balance multiset is unchanged. -/
lemma balances_eq_nonneg {st' st : SecureStorage}
    (h : st'.users.map (·.balance) = st.users.map (·.balance))
    (hst : balancesNonneg st) : balancesNonneg st' := by
  intro x hx
  have hmem : x.balance ∈ st'.users.map (·.balance) := List.mem_map_of_mem _ hx
  rw [h] at hmem
  obtain ⟨y, hy, hxy⟩ := List.mem_map.1 hmem
  rw [← hxy]
  exact hst y hy

/-- Replacing the element `find?` found by a record with the same
balance leaves the balance list unchanged. -/
lemma map_balance_updateFirst {l : List SecureUser} {p : SecureUser → Bool}
    {u' u : SecureUser} (hfind : l.find? p = some u)
    (hbal : u'.balance = u.balance) :
    (updateFirst p (fun _ => u') l).map (·.balance) = l.map (·.balance) := by
  induction l with
  | nil => simp at hfind
  | cons a as ih =>
      by_cases hp : p a
      · rw [List.find?_cons_of_pos _ hp] at hfind
        injection hfind with ha
        subst ha
        simp [updateFirst, if_pos hp, hbal]
      · rw [List.find?_cons_of_neg _ hp] at hfind
        simp [updateFirst, if_neg hp, ih hfind]

/-- Updating elements without touching balances leaves the balance list
unchanged. -/
lemma map_balance_updateFirst_pres {l : List SecureUser} {p : SecureUser → Bool}
    {f : SecureUser → SecureUser} (hf : ∀ x, (f x).balance = x.balance) :
    (updateFirst p f l).map (·.balance) = l.map (·.balance) := by
  induction l with
  | nil => rfl
  | cons a as ih =>
      by_cases hp : p a
      · simp [updateFirst, if_pos hp, hf]
      · simp [updateFirst, if_neg hp, ih]

/-- C2 amended: transaction operations and account administration never
drive a *nonnegative* balance negative — the transfer/withdraw routes
debit at most the checked balance, deposits credit positive amounts,
login and status toggling leave balances untouched, and `createUser`
stores exactly the supplied `initialBalance` (so nonnegativity at
creation holds only under the extra hypothesis `0 ≤ initialBalance`,
which the code does not enforce — see the counterexample). -/
theorem c2_balances_amended :
    (∀ (st : SecureStorage) (u : SecureUser) (req : TransferReq) (now : ℤ)
        (ip ua : JStr), balancesNonneg st →
        balancesNonneg (transferPost st u req now ip ua).2)
    ∧ (∀ (st : SecureStorage) (u : SecureUser) (amount : ℚ) (ref : Option JStr)
        (now : ℤ) (ip ua : JStr), balancesNonneg st →
        balancesNonneg (withdrawPost st u amount ref now ip ua).2)
    ∧ (∀ (st : SecureStorage) (u : SecureUser) (amount : ℚ) (ref : Option JStr)
        (now : ℤ) (ip ua : JStr), balancesNonneg st →
        st.users.find? (fun x => x.id = u.id) = some u →
        balancesNonneg (depositPost st u amount ref now ip ua).2)
    ∧ (∀ (vp : JStr → JStr → JStr → Bool) (enc : SDPayload → JStr)
        (secret : JStr) (st : SecureStorage) (email pwd : JStr) (now : ℤ)
        (sid ip ua : JStr), balancesNonneg st →
        balancesNonneg (authenticateUser vp enc secret st email pwd now sid ip ua).2)
    ∧ (∀ (st : SecureStorage) (uid : JStr) (active : Bool), balancesNonneg st →
        balancesNonneg (updateUserStatus st uid active).2)
    ∧ (∀ (hashF : JStr → JStr × JStr) (acct : JStr) (st : SecureStorage)
        (d : CreateUserData) (now : ℤ), balancesNonneg st →
        0 ≤ d.initialBalance →
        balancesNonneg (createUser hashF acct st d now).2) := by
  refine ⟨?_, ?_, ?_, ?_, ?_, ?_⟩
  · intro st u req now ip ua hst
    unfold transferPost
    generalize transferValidation req = v
    rcases v with _ | e2 <;> dsimp only
    · split_ifs with h1 h2 h3 <;>
        first
        | exact hst
        | exact balancesNonneg_updateUserBalance _ _ _ (fun x hx => hst x hx)
            (by have := not_lt.1 h1; linarith)
    · exact hst
  · intro st u amount ref now ip ua hst
    unfold withdrawPost
    dsimp only
    split_ifs <;>
      first
      | exact hst
      | exact balancesNonneg_updateUserBalance _ _ _ (fun x hx => hst x hx)
          (by
            have h := ‹¬ amount + min (amount * (1 / 1000)) 50 > u.balance›
            have := not_lt.1 h
            linarith)
  · intro st u amount ref now ip ua hst hfind
    have hub : 0 ≤ u.balance := hst u (List.mem_of_find?_eq_some hfind)
    unfold depositPost
    dsimp only
    split_ifs <;>
      first
      | exact hst
      | exact balancesNonneg_updateUserBalance _ _ _ (fun x hx => hst x hx)
          (by
            have hpos := validateTransactionAmount_pos
              ‹validateTransactionAmount amount = true›
            linarith)
  · intro vp enc secret st email pwd now sid ip ua hst
    unfold authenticateUser
    dsimp only
    split
    · exact hst
    · split
      · exact hst
      · rename_i user heq
        split
        · exact hst
        · split
          · exact hst
          · split
            · exact balances_eq_nonneg (map_balance_updateFirst heq rfl) hst
            · exact balances_eq_nonneg (map_balance_updateFirst heq rfl) hst
  · intro st uid active hst
    unfold updateUserStatus
    split
    · exact balances_eq_nonneg (map_balance_updateFirst_pres (fun x => rfl)) hst
    · exact hst
  · intro hashF acct st d now hst hinit
    unfold createUser
    split_ifs <;>
      first
      | exact hst
      | (intro x hx
         rcases List.mem_append.1 hx with h | h
         · exact hst x h
         · rw [List.mem_singleton.1 h]
           exact hinit)

/-- Witness for the amended C2: creating a user with a positive initial
balance and withdrawing from `uAlice` both preserve the invariant. -/
theorem c2_amended_witness :
    balancesNonneg (createUser (fun _ => (jstr "H", jstr "S")) (jstr "6200000003")
        stAlice cDataPos 0).2
    ∧ balancesNonneg (withdrawPost stAlice uAlice 1000 none 0 [] []).2 := by
  have hst : balancesNonneg stAlice := by
    simp only [balancesNonneg]
    decide
  exact ⟨c2_balances_amended.2.2.2.2.2 _ _ _ _ _ hst (by decide),
    c2_balances_amended.2.1 stAlice uAlice 1000 none 0 [] [] hst⟩

/-! ## C8 — risk scoring -/

/-- Counterexample to C8 as stated: at hour 3 (outside [6,22)) a small
non-international transaction on a pair with a prior completed
transaction should score 10 by the spec formula, but
`SecureDatabase.createTransaction` stores 0 — it has no hour-of-day
term at all.  The `TransactionRepository.calculateRiskScore` variant
does add the night bump but reads the ambient clock and lacks the
first-time-recipient term: at hour 3 on a first-time pair the spec
formula gives 35, the repository variant 10. -/
theorem c8_counterexample :
    (createTransaction stC8 dSmall 0 none none).1.riskScore = 0
    ∧ specRiskScore dSmall.amountInZAR false 3 true = 10
    ∧ calculateRiskScore 100 (jstr "deposit") 3 = 10
    ∧ specRiskScore 100 false 3 false = 35
    ∧ (0 : ℕ) ≠ 10 := by
  refine ⟨by decide, by decide, by decide, by decide, by decide⟩

/-- C8 amended: the risk score stored by
`SecureDatabase.createTransaction` is a deterministic pure function of
the transaction's attributes and the previously stored transactions —
the amount tier plus 20 for `international_transfer` plus 25 when no
stored transaction *of any status* links the same (from, to) pair — with
no hour-of-day term (so it equals the spec formula at any daytime hour
in [6,22) with recipient novelty read as "any prior transaction"), and
it never exceeds 75, hence lies in [0,100] with the cap vacuous. -/
theorem c8_risk_amended (st : SecureStorage) (d : CreateTxData) (now : ℤ)
    (ip ua : Option JStr) (hour : ℕ) (h6 : 6 ≤ hour) (h22 : hour < 22) :
    (createTransaction st d now ip ua).1.riskScore =
      specRiskScore d.amountInZAR
        (decide (d.type = jstr "international_transfer")) hour
        (pairExists st.transactions d)
    ∧ createTransactionRiskScore st.transactions d ≤ 75 := by
  constructor
  · show createTransactionRiskScore st.transactions d = _
    simp only [createTransactionRiskScore, specRiskScore, pairExists]
    rw [if_neg (by omega : ¬ (hour < 6 ∨ 22 ≤ hour))]
    split_ifs <;> first | omega | (simp_all; omega) | simp_all
  · unfold createTransactionRiskScore
    split_ifs <;> omega

/-- Witness for the amended C8 at hour 12 on the concrete fixture. -/
theorem c8_amended_witness :
    (createTransaction stC8 dSmall 0 none none).1.riskScore =
      specRiskScore dSmall.amountInZAR
        (decide (dSmall.type = jstr "international_transfer")) 12
        (pairExists stC8.transactions dSmall)
    ∧ createTransactionRiskScore stC8.transactions dSmall ≤ 75 :=
  c8_risk_amended stC8 dSmall 0 none none 12 (by norm_num) (by norm_num)

/-- C5: lockout behaviour of AuthService.authenticate. For any user found by
email: (a) with no active lock, a wrong password on the 5th consecutive failure
fails with 0 remaining attempts and stores failedLoginAttempts = 5 and
lockedUntil = now + 900000 ms (15 minutes); (b) while lockedUntil lies in the
future, authenticate fails with accountLocked regardless of the supplied
password; (c) once the lock has elapsed, a correct password on an active
account succeeds, issues a JWT for a fresh session expiring in 24 h, and the
stored user has failedLoginAttempts = 0 and lockedUntil cleared. -/
theorem c5_lockout (vp : JStr → JStr → JStr → Bool) (enc : SDPayload → JStr)
    (secret : JStr) (st : DbState) (email pwd : JStr) (now : ℤ)
    (logId sid stok : JStr) (ip ua : Option JStr) (user : DbUser)
    (hemail : emailPat email = true)
    (hfind : findByEmailWithPassword st email = some user) :
    ((∀ t, user.lockedUntil = some t → t ≤ now) → user.isActive = true →
      vp pwd user.passwordHash user.passwordSalt = false →
      user.failedLoginAttempts = 4 →
      (authenticate vp enc secret st email pwd now logId sid stok ip ua).1 =
          .failure (.invalidCredentialsRemaining 0)
      ∧ ∀ x ∈ (authenticate vp enc secret st email pwd now logId sid stok ip ua).2.users,
          x.id = user.id →
          x.failedLoginAttempts = 5 ∧ x.lockedUntil = some (now + 900000))
    ∧ (∀ t, user.lockedUntil = some t → now < t →
      (authenticate vp enc secret st email pwd now logId sid stok ip ua).1 =
        .failure .accountLocked)
    ∧ (∀ t, user.lockedUntil = some t → t ≤ now → user.isActive = true →
      vp pwd user.passwordHash user.passwordSalt = true →
      (authenticate vp enc secret st email pwd now logId sid stok ip ua).1 =
        .success (safeUser user)
          (generateJWT (enc (SDPayload.mk user.id sid user.role (now + 86400000))) secret)
      ∧ ∀ x ∈ (authenticate vp enc secret st email pwd now logId sid stok ip ua).2.users,
          x.id = user.id →
          x.failedLoginAttempts = 0 ∧ x.lockedUntil = none) := by
  have hem : ¬ (¬ emailPat email = true) := by simp [hemail]
  refine ⟨?_, ?_, ?_⟩
  · intro hnl hact hwrong h4
    have hlock : (match user.lockedUntil with
        | some t => decide (now < t)
        | none => false) = false := by
      cases hul : user.lockedUntil with
      | none => rfl
      | some t => simpa using not_lt.2 (hnl t hul)
    constructor
    · unfold authenticate
      rw [if_neg hem, hfind]
      dsimp only
      rw [if_neg (by simp [hlock]), if_neg (by simp [hact]),
        if_pos (by simp [hwrong]), h4]
      rfl
    · unfold authenticate
      rw [if_neg hem, hfind]
      dsimp only
      rw [if_neg (by simp [hlock]), if_neg (by simp [hact]),
        if_pos (by simp [hwrong]), h4]
      intro x hx hxid
      rcases List.mem_map.1 hx with ⟨y, hy, rfl⟩
      by_cases hyid : y.id = user.id
      · rw [if_pos (by simp [hyid])] at hxid ⊢
        exact ⟨rfl, by norm_num⟩
      · rw [if_neg (by simp [hyid])] at hxid ⊢
        exact absurd hxid hyid
  · intro t hul hfut
    have hlock : (match user.lockedUntil with
        | some t => decide (now < t)
        | none => false) = true := by
      rw [hul]
      simpa using hfut
    unfold authenticate
    rw [if_neg hem, hfind]
    dsimp only
    rw [if_pos (by simp [hlock])]
  · intro t hul hpast hact hcorrect
    have hlock : (match user.lockedUntil with
        | some t => decide (now < t)
        | none => false) = false := by
      rw [hul]
      simpa using not_lt.2 hpast
    constructor
    · unfold authenticate
      rw [if_neg hem, hfind]
      dsimp only
      rw [if_neg (by simp [hlock]), if_neg (by simp [hact]),
        if_neg (by simp [hcorrect])]
      rfl
    · unfold authenticate
      rw [if_neg hem, hfind]
      dsimp only
      rw [if_neg (by simp [hlock]), if_neg (by simp [hact]),
        if_neg (by simp [hcorrect])]
      intro x hx hxid
      rcases List.mem_map.1 hx with ⟨y, hy, rfl⟩
      by_cases hyid : y.id = user.id
      · rw [if_pos (by simp [hyid])] at hxid ⊢
        exact ⟨rfl, rfl⟩
      · rw [if_neg (by simp [hyid])] at hxid ⊢
        exact absurd hxid hyid

/-- C5 witness: Bob, four failures on record, wrong password at t = 0: the
call fails with 0 remaining attempts. -/
theorem c5_lockout_witness :
    (authenticate (fun p h _ => p == h) wEnc (jstr "k") (dbStOf dbuBob4 [])
        (jstr "a@b.co") (jstr "bad") 0 (jstr "L") (jstr "s1") (jstr "t1") none none).1 =
      .failure (.invalidCredentialsRemaining 0) :=
  ((c5_lockout (fun p h _ => p == h) wEnc (jstr "k") (dbStOf dbuBob4 [])
      (jstr "a@b.co") (jstr "bad") 0 (jstr "L") (jstr "s1") (jstr "t1") none none dbuBob4
      (by decide) (by decide)).1
    (fun t ht => absurd ht (by simp [dbuBob4, dbuBob]))
    rfl (by decide) rfl).1

/-! ## C6 — session validation -/

/-- C6: `AuthService.validateSession` changes no state (the returned state is
the input state, so no expiry is extended), and — once the token's JWT layer
decodes to a payload — it returns the safe account view exactly when the
referenced session exists, neither the payload expiry nor the session's
`expiresAt` has passed, and the owning account is active; it returns none
when the JWT layer fails, the payload is expired, the session is missing or
expired, or the user is missing or inactive.  The code checks the decoded
payload's `exp` in addition to the stored session expiry. -/
theorem c6_validate_session (dec : JStr → Option SDPayload) (secret : JStr)
    (st : DbState) (token : JStr) (now : ℤ) :
    (authValidateSession dec secret st token now).2 = st
    ∧ ((verifyJWT token secret).bind dec = none →
        (authValidateSession dec secret st token now).1 = none)
    ∧ (∀ p, (verifyJWT token secret).bind dec = some p →
        (p.exp < now → (authValidateSession dec secret st token now).1 = none)
        ∧ (now ≤ p.exp →
          (sessionFindById st p.sessionId = none →
            (authValidateSession dec secret st token now).1 = none)
          ∧ ∀ s, sessionFindById st p.sessionId = some s →
            (s.expiresAt < now →
              (authValidateSession dec secret st token now).1 = none)
            ∧ (now ≤ s.expiresAt →
              (userFindById st p.userId = none →
                (authValidateSession dec secret st token now).1 = none)
              ∧ ∀ u, userFindById st p.userId = some u →
                (u.isActive = false →
                  (authValidateSession dec secret st token now).1 = none)
                ∧ (u.isActive = true →
                  (authValidateSession dec secret st token now).1 = some u)))) := by
  refine ⟨?_, ?_, ?_⟩
  · unfold authValidateSession
    repeat first | rfl | split
  · intro hdec
    unfold authValidateSession
    rw [hdec]
  · intro p hdec
    constructor
    · intro hexp
      unfold authValidateSession
      rw [hdec]
      dsimp only
      rw [if_pos hexp]
    · intro hexp
      have hnexp : ¬ p.exp < now := not_lt.2 hexp
      constructor
      · intro hs
        unfold authValidateSession
        rw [hdec]
        dsimp only
        rw [if_neg hnexp, hs]
      · intro s hs
        constructor
        · intro hsexp
          unfold authValidateSession
          rw [hdec]
          dsimp only
          rw [if_neg hnexp, hs]
          dsimp only
          rw [if_pos hsexp]
        · intro hsexp
          have hnsexp : ¬ s.expiresAt < now := not_lt.2 hsexp
          constructor
          · intro hu
            unfold authValidateSession
            rw [hdec]
            dsimp only
            rw [if_neg hnexp, hs]
            dsimp only
            rw [if_neg hnsexp, hu]
          · intro u hu
            constructor
            · intro hinact
              unfold authValidateSession
              rw [hdec]
              dsimp only
              rw [if_neg hnexp, hs]
              dsimp only
              rw [if_neg hnsexp, hu]
              dsimp only
              rw [if_pos (by simp [hinact])]
            · intro hact
              unfold authValidateSession
              rw [hdec]
              dsimp only
              rw [if_neg hnexp, hs]
              dsimp only
              rw [if_neg hnsexp, hu]
              dsimp only
              rw [if_neg (by simp [hact])]

/-- C6 witness: a fresh unexpired session for Bob validates to Bob's safe
view and leaves the state exactly as it was. -/
theorem c6_validate_session_witness :
    (authValidateSession wDec (jstr "k") (dbStOf dbuBob [dbsS1])
      (generateJWT (wEnc pS1) (jstr "k")) 0).1 = some (safeUser dbuBob)
    ∧ (authValidateSession wDec (jstr "k") (dbStOf dbuBob [dbsS1])
      (generateJWT (wEnc pS1) (jstr "k")) 0).2 = dbStOf dbuBob [dbsS1] := by
  have hdec : (verifyJWT (generateJWT (wEnc pS1) (jstr "k")) (jstr "k")).bind wDec
      = some pS1 := by
    rw [verifyJWT_generateJWT _ _ (by decide)]
    decide
  refine ⟨?_, (c6_validate_session wDec (jstr "k") (dbStOf dbuBob [dbsS1])
      (generateJWT (wEnc pS1) (jstr "k")) 0).1⟩
  exact (((((((c6_validate_session wDec (jstr "k") (dbStOf dbuBob [dbsS1])
      (generateJWT (wEnc pS1) (jstr "k")) 0).2.2 pS1 hdec).2
      (by decide)).2 dbsS1 (by decide)).2
      (by decide)).2 (safeUser dbuBob) (by decide)).2 rfl)

/-! ## C9 — concurrent sessions -/

lemma mapSet_cons_ne (a : JStr × α) (as : List (JStr × α)) (k : JStr) (v : α)
    (ha : ¬ a.1 = k) : mapSet (a :: as) k v = a :: mapSet as k v := by
  have hfc : (a :: as).find? (fun e => e.1 = k) = as.find? (fun e => e.1 = k) :=
    List.find?_cons_of_neg _ (by simp [ha])
  by_cases hs : (as.find? (fun e => e.1 = k)).isSome
  · simp [mapSet, hfc, hs, updateFirst, ha]
  · simp [mapSet, hfc, hs]

lemma mapGet_cons_ne (a : JStr × α) (l : List (JStr × α)) (q : JStr)
    (ha : ¬ a.1 = q) : mapGet (a :: l) q = mapGet l q := by
  unfold mapGet
  rw [List.find?_cons_of_neg _ (by simp [ha])]

lemma mapGet_mapSet_self (m : List (JStr × α)) (k : JStr) (v : α) :
    mapGet (mapSet m k v) k = some v := by
  induction m with
  | nil => simp [mapSet, mapGet]
  | cons a as ih =>
      by_cases ha : a.1 = k
      · have hfind : (a :: as).find? (fun e => e.1 = k) = some a :=
          List.find?_cons_of_pos _ (by simp [ha])
        simp [mapSet, hfind, updateFirst, ha, mapGet]
      · rw [mapSet_cons_ne a as k v ha, mapGet_cons_ne a _ k ha]
        exact ih

lemma mapGet_mapSet_ne (m : List (JStr × α)) (k q : JStr) (v : α)
    (h : ¬ q = k) : mapGet (mapSet m k v) q = mapGet m q := by
  induction m with
  | nil => simp [mapSet, mapGet, Ne.symm h]
  | cons a as ih =>
      by_cases ha : a.1 = k
      · have hfind : (a :: as).find? (fun e => e.1 = k) = some a :=
          List.find?_cons_of_pos _ (by simp [ha])
        have haq : ¬ a.1 = q := by
          rw [ha]
          exact Ne.symm h
        have hset : mapSet (a :: as) k v = (k, v) :: as := by
          simp [mapSet, hfind, updateFirst, ha]
        rw [hset, mapGet_cons_ne (k, v) as q (Ne.symm h), mapGet_cons_ne a as q haq]
      · rw [mapSet_cons_ne a as k v ha]
        by_cases haq : a.1 = q
        · unfold mapGet
          rw [List.find?_cons_of_pos _ (by simp [haq]),
            List.find?_cons_of_pos _ (by simp [haq])]
        · rw [mapGet_cons_ne a _ q haq, mapGet_cons_ne a _ q haq]
          exact ih

/-- Counterexample to C9 as stated: Alice logs in twice (sessions `s1`
then `s2`, both issued, both stored in the session map, both unexpired
at time 0, neither revoked), yet the first token no longer validates —
`SecureDatabase.authenticateUser` overwrites the user's single
`sessionId` field on each login and `validateSession` requires the
token's `sessionId` to equal it, so only the latest session's token is
accepted. -/
theorem c9_counterexample :
    sdToken c9login1.1 = some c9tok1
    ∧ sdToken c9login2.1 = some c9tok2
    ∧ mapGet c9login2.2.sessions (jstr "s1") = some (SessionEntry.mk (jstr "1") 86400000)
    ∧ mapGet c9login2.2.sessions (jstr "s2") = some (SessionEntry.mk (jstr "1") 86400000)
    ∧ validateSession wDec (jstr "k") c9login2.2 c9tok2 0 ≠ none
    ∧ validateSession wDec (jstr "k") c9login2.2 c9tok1 0 = none := by
  decide

/-- C9 amended: a successful `SecureDatabase.authenticateUser` issues a
fresh session and keeps every other stored session entry intact in the
map, but overwrites the stored user's single `sessionId` field with the
fresh id; and `validateSession` rejects every token whose payload
`sessionId` differs from the owning user's current `sessionId` — so
concurrent session entries coexist in storage, yet only the most recent
login's token validates. -/
theorem c9_sessions_amended (vp : JStr → JStr → JStr → Bool)
    (enc : SDPayload → JStr) (secret : JStr) (st : SecureStorage)
    (email password : JStr) (now : ℤ) (sid ip ua : JStr) (user : SecureUser)
    (hemail : emailPat email = true)
    (hfind : st.users.find? (fun u => u.email = sanitizeInput email) = some user)
    (hnolock : ∀ t, user.lockedUntil = some t → t ≤ now)
    (hact : user.isActive = true)
    (hpwd : vp password user.passwordHash user.passwordSalt = true) :
    ((authenticateUser vp enc secret st email password now sid ip ua).1 =
      .success (postLoginUser user now sid ip ua)
        (generateJWT (enc (SDPayload.mk user.id sid user.role (now + 86400000))) secret)
    ∧ mapGet (authenticateUser vp enc secret st email password now sid ip ua).2.sessions sid =
        some (SessionEntry.mk user.id (now + 86400000))
    ∧ (∀ k, ¬ k = sid →
        mapGet (authenticateUser vp enc secret st email password now sid ip ua).2.sessions k =
          mapGet st.sessions k)
    ∧ (authenticateUser vp enc secret st email password now sid ip ua).2.users.find?
        (fun u => u.email = sanitizeInput email) = some (postLoginUser user now sid ip ua))
    ∧ ∀ (dec : JStr → Option SDPayload) (st2 : SecureStorage) (token : JStr) (t : ℤ)
        (p : SDPayload) (u : SecureUser),
        (verifyJWT token secret).bind dec = some p →
        st2.users.find? (fun x => x.id = p.userId) = some u →
        u.sessionId ≠ some p.sessionId →
        validateSession dec secret st2 token t = none := by
  have hem : ¬ (¬ emailPat email = true) := by simp [hemail]
  have hlock : (match user.lockedUntil with
      | some t => decide (now < t)
      | none => false) = false := by
    cases hul : user.lockedUntil with
    | none => rfl
    | some t => simpa using not_lt.2 (hnolock t hul)
  constructor
  · unfold authenticateUser
    rw [if_neg hem]
    dsimp only
    rw [hfind]
    dsimp only
    rw [if_neg (by simp [hlock]), if_neg (by simp [hact]), if_neg (by simp [hpwd])]
    have hpf : ∀ x, (fun u : SecureUser => decide (u.email = sanitizeInput email)) x = true →
        (fun u : SecureUser => decide (u.email = sanitizeInput email))
          (postLoginUser user now sid ip ua) = true := by
      intro x _
      simpa [postLoginUser] using List.find?_some hfind
    refine ⟨rfl, mapGet_mapSet_self _ _ _,
      fun k hk => mapGet_mapSet_ne _ _ _ _ hk, ?_⟩
    show (updateFirst (fun u => u.email = sanitizeInput email)
        (fun _ => postLoginUser user now sid ip ua) st.users).find?
        (fun u => u.email = sanitizeInput email) = _
    rw [find?_updateFirst _ _ _ hpf, hfind]
    rfl
  · intro dec st2 token t p u hdec hfu hne
    unfold validateSession
    rw [hdec]
    dsimp only
    split_ifs with h1
    · rfl
    · cases hm : mapGet st2.sessions p.sessionId with
      | none => rfl
      | some s =>
          dsimp only
          split_ifs with h2
          · rfl
          · rw [hfu]
            dsimp only
            split_ifs with h3 <;> rfl

/-- C9 amended witness: Alice's first login stores session `s1`, and
after the second login the first token is rejected. -/
theorem c9_amended_witness :
    mapGet (authenticateUser c9vp wEnc (jstr "k") stAlice (jstr "a@b.co") (jstr "H")
      0 (jstr "s1") (jstr "i") (jstr "u")).2.sessions (jstr "s1") =
      some (SessionEntry.mk uAlice.id (0 + 86400000))
    ∧ validateSession wDec (jstr "k") c9login2.2 c9tok1 0 = none :=
  ⟨(c9_sessions_amended c9vp wEnc (jstr "k") stAlice (jstr "a@b.co") (jstr "H") 0
      (jstr "s1") (jstr "i") (jstr "u") uAlice (by decide) (by decide)
      (fun t ht => absurd ht (by simp [uAlice]))
      rfl (by decide)).1.2.1,
   (c9_sessions_amended c9vp wEnc (jstr "k") stAlice (jstr "a@b.co") (jstr "H") 0
      (jstr "s1") (jstr "i") (jstr "u") uAlice (by decide) (by decide)
      (fun t ht => absurd ht (by simp [uAlice]))
      rfl (by decide)).2 wDec c9login2.2 c9tok1 0
      (SDPayload.mk (jstr "1") (jstr "s1") Role.customer 86400000)
      (postLoginUser (postLoginUser uAlice 0 (jstr "s1") (jstr "i") (jstr "u"))
        0 (jstr "s2") (jstr "i") (jstr "u"))
      (by decide) (by decide) (by decide)⟩
